import Mathlib

/-!
# Verification of the kadmin-rs runtime library abstraction layer

Shallow embedding of the variant-selection, dynamic-loading, lifetime-guard and
error-translation core of the `kadmin` crate (files `src/kadmin/src/sys.rs`,
`error.rs`, `context.rs`, `kadmin.rs`, `params.rs`, `tl_data.rs`, `conv.rs`),
with theorems settling the specification claims about it.

Machine integers are modelled as `Int` with explicit wrap-around where the Rust
source casts between widths (`as u32`, `as i32`, `as u16`, `as i16`).  Native
calls and lock operations are modelled as explicit event traces; native return
codes and other outcomes of foreign calls are oracle parameters.
-/

namespace KadminRs

/-! ## Integer casts

Rust `as` casts used by the source, on the `Int` model. -/

/-- Rust `x as u32` on an `i64`: the low 32 bits, as a non-negative integer. -/
def toU32 (x : Int) : Int := x % 2 ^ 32

/-- Rust `x as i32` on an `i64`: wrap into `[-2^31, 2^31)`. -/
def toI32 (x : Int) : Int := (x + 2 ^ 31) % 2 ^ 32 - 2 ^ 31

/-- Rust `x as u16` on a `usize` length: the low 16 bits. -/
def toU16 (x : Int) : Int := x % 2 ^ 16

/-- Rust `x as i16` on a `usize` length: wrap into `[-2^15, 2^15)`. -/
def toI16 (x : Int) : Int := (x + 2 ^ 15) % 2 ^ 16 - 2 ^ 15

/-- Rust `x as usize` on an `i16`/`i64` value: non-negative values unchanged,
negative values wrap modulo `2^64`. -/
def toUsize (x : Int) : Int := x % 2 ^ 64

/-! ## Variants and libraries (`src/kadmin/src/sys.rs`) -/

/-- `KAdm5Variant`: the four supported (implementation, role) pairs. -/
inductive KAdm5Variant where
  /-- MIT krb5 client-side -/
  | mitClient
  /-- MIT krb5 server-side -/
  | mitServer
  /-- Heimdal client-side -/
  | heimdalClient
  /-- Heimdal server-side -/
  | heimdalServer
deriving DecidableEq, Repr

/-- Provenance of a `dlopen2::Container`: which `Container::load` /
`Container::load_self` call produced the resolved symbol table.  The function
pointers themselves are opaque; only the provenance is observable here. -/
inductive LibSource where
  /-- `Container::load(path)`: opened the shared object at `path`. -/
  | file (path : String)
  /-- `Container::load_self()`: symbols resolved from the running process. -/
  | process
deriving DecidableEq, Repr

/-- A loaded `dlopen2::wrapper::Container`: an opened shared-library image with
its resolved function-pointer table, identified by its provenance. -/
structure Container where
  source : LibSource
deriving DecidableEq, Repr

/-- `Library`: bindings to a kadm5 library, one arm per variant, each owning
the loaded container. -/
inductive Library where
  /-- Bindings for the MIT krb5 client-side library -/
  | mitClient (cont : Container)
  /-- Bindings for the MIT krb5 server-side library -/
  | mitServer (cont : Container)
  /-- Bindings for the Heimdal client-side library -/
  | heimdalClient (cont : Container)
  /-- Bindings for the Heimdal server-side library -/
  | heimdalServer (cont : Container)
deriving DecidableEq, Repr

/-- `Library::is_mit` -/
def Library.is_mit : Library → Bool
  | .mitClient _ | .mitServer _ => true
  | _ => false

/-- `Library::is_heimdal` -/
def Library.is_heimdal : Library → Bool
  | .heimdalClient _ | .heimdalServer _ => true
  | _ => false

/-- Modelled from the spec: `Library::variant` is called by
`KAdminBuilder::get_kadmin` and `KAdminImpl::variant` but its definition is not
under `src/`; per the spec each `Library` arm corresponds to exactly one
`KAdm5Variant` ("one runtime tag (Variant) paired with one resolved
function/constant table"). -/
def Library.variant : Library → KAdm5Variant
  | .mitClient _ => .mitClient
  | .mitServer _ => .mitServer
  | .heimdalClient _ => .heimdalClient
  | .heimdalServer _ => .heimdalServer

/-- Modelled from the spec: `Library::is_client` is called by the
`with_password`/`with_keytab`/`with_ccache` entry points but its definition is
not under `src/`; per the spec it distinguishes the client role along the
client/server axis. -/
def Library.is_client : Library → Bool
  | .mitClient _ | .heimdalClient _ => true
  | _ => false

/-- Modelled from the spec: `Library::is_server` is called by `with_local` but
its definition is not under `src/`; per the spec it distinguishes the
server-side (local direct-database) role. -/
def Library.is_server : Library → Bool
  | .mitServer _ | .heimdalServer _ => true
  | _ => false

/-! ## Error type (`src/kadmin/src/error.rs`) -/

/-- `Error`: the structured error union (the arms relevant to the verified
core; binding-glue arms such as thread channel errors are omitted). -/
inductive Error where
  /-- `Error::Kerberos { code, message }` -/
  | kerberos (code : Int) (message : String)
  /-- `Error::KAdmin { code, message }` -/
  | kadmin (code : Int) (message : String)
  /-- `Error::NullPointerDereference` -/
  | nullPointerDereference
  /-- `Error::StringConversion` (interior NUL found by `CString::new`) -/
  | stringConversion
  /-- `Error::CStringConversion` (invalid UTF-8 etc.) -/
  | cstringConversion
  /-- `Error::LockError` -/
  | lockError
  /-- `Error::LibraryLoadError` -/
  | libraryLoadError
  /-- `Error::LibraryMismatch(message)` -/
  | libraryMismatch (message : String)
deriving DecidableEq, Repr

/-- `KRB5_OK`: the krb5 "no error" sentinel, 0 for both families. -/
def KRB5_OK : Int := 0

/-- `KADM5_OK`: the kadm5 "no error" sentinel (aliased to `KRB5_OK` for
Heimdal-only builds), 0 for both families. -/
def KADM5_OK : Int := 0

/-- A Kerberos context (`Context` from `src/kadmin/src/context.rs`): the
library it was created with, a cached optional default realm, and an oracle
`errMsg` abstracting what the native `krb5_get_error_message` returns for a
code on this context. -/
structure Context where
  library : Library
  defaultRealm : Option String := none
  errMsg : Int → String

/-- `krb5_error_code_escape_hatch` (`error.rs` lines 100-109): `KRB5_OK` maps
to success, everything else to `Error::Kerberos` with the message fetched from
the native library via `Context::error_code_to_message`. -/
def krb5_error_code_escape_hatch (context : Context) (code : Int) :
    Except Error Unit :=
  if code = KRB5_OK then .ok ()
  else .error (.kerberos code (context.errMsg code))

namespace mit

/-- Modelled from the spec: the `sys::mit::KADM5_*` error constants referenced
by `error.rs` come from generated bindgen bindings that are not under `src/`.
Their values are the MIT krb5 `kadm_err` com_err table: sequential codes
starting at the `ovk` error-table base 43787520, in the order the messages are
listed ("a fixed static table maps ~50 known kadm5-specific codes to literal
human-readable strings, ported verbatim from the native library's own message
table"). -/
def KADM5_FAILURE : Int := 43787520

def KADM5_AUTH_GET : Int := 43787521

def KADM5_AUTH_ADD : Int := 43787522

def KADM5_AUTH_MODIFY : Int := 43787523

def KADM5_AUTH_DELETE : Int := 43787524

def KADM5_AUTH_INSUFFICIENT : Int := 43787525

def KADM5_BAD_DB : Int := 43787526

def KADM5_DUP : Int := 43787527

def KADM5_RPC_ERROR : Int := 43787528

def KADM5_NO_SRV : Int := 43787529

def KADM5_BAD_HIST_KEY : Int := 43787530

def KADM5_NOT_INIT : Int := 43787531

def KADM5_UNK_PRINC : Int := 43787532

def KADM5_UNK_POLICY : Int := 43787533

def KADM5_BAD_MASK : Int := 43787534

def KADM5_BAD_CLASS : Int := 43787535

def KADM5_BAD_LENGTH : Int := 43787536

def KADM5_BAD_POLICY : Int := 43787537

def KADM5_BAD_PRINCIPAL : Int := 43787538

def KADM5_BAD_AUX_ATTR : Int := 43787539

def KADM5_BAD_HISTORY : Int := 43787540

def KADM5_BAD_MIN_PASS_LIFE : Int := 43787541

def KADM5_PASS_Q_TOOSHORT : Int := 43787542

def KADM5_PASS_Q_CLASS : Int := 43787543

def KADM5_PASS_Q_DICT : Int := 43787544

def KADM5_PASS_REUSE : Int := 43787545

def KADM5_PASS_TOOSOON : Int := 43787546

def KADM5_POLICY_REF : Int := 43787547

def KADM5_INIT : Int := 43787548

def KADM5_BAD_PASSWORD : Int := 43787549

def KADM5_PROTECT_PRINCIPAL : Int := 43787550

def KADM5_BAD_SERVER_HANDLE : Int := 43787551

def KADM5_BAD_STRUCT_VERSION : Int := 43787552

def KADM5_OLD_STRUCT_VERSION : Int := 43787553

def KADM5_NEW_STRUCT_VERSION : Int := 43787554

def KADM5_BAD_API_VERSION : Int := 43787555

def KADM5_OLD_LIB_API_VERSION : Int := 43787556

def KADM5_OLD_SERVER_API_VERSION : Int := 43787557

def KADM5_NEW_LIB_API_VERSION : Int := 43787558

def KADM5_NEW_SERVER_API_VERSION : Int := 43787559

def KADM5_SECURE_PRINC_MISSING : Int := 43787560

def KADM5_NO_RENAME_SALT : Int := 43787561

def KADM5_BAD_CLIENT_PARAMS : Int := 43787562

def KADM5_BAD_SERVER_PARAMS : Int := 43787563

def KADM5_AUTH_LIST : Int := 43787564

def KADM5_AUTH_CHANGEPW : Int := 43787565

def KADM5_GSS_ERROR : Int := 43787566

def KADM5_BAD_TL_TYPE : Int := 43787567

def KADM5_MISSING_CONF_PARAMS : Int := 43787568

def KADM5_BAD_SERVER_NAME : Int := 43787569

def KADM5_AUTH_SETKEY : Int := 43787570

def KADM5_SETKEY_DUP_ENCTYPES : Int := 43787571

def KADM5_SETV4KEY_INVAL_ENCTYPE : Int := 43787572

def KADM5_SETKEY3_ETYPE_MISMATCH : Int := 43787573

def KADM5_MISSING_KRB5_CONF_PARAMS : Int := 43787574

def KADM5_XDR_FAILURE : Int := 43787575

def KADM5_CANT_RESOLVE : Int := 43787576

def KADM5_PASS_Q_GENERIC : Int := 43787577

end mit

/-- The static MIT `match code as u32` table of `kadm5_ret_t_escape_hatch`
(`error.rs` lines 123-209), as an association list in source order, with the
messages copied verbatim (Rust string continuations `\` collapse the line break
and leading whitespace). -/
def mitKadm5Messages : List (Int × String) :=
  [ (mit.KADM5_FAILURE, "Operation failed for unspecified reason"),
    (mit.KADM5_AUTH_GET, "Operation requires ``get'' privilege"),
    (mit.KADM5_AUTH_ADD, "Operation requires ``add'' privilege"),
    (mit.KADM5_AUTH_MODIFY, "Operation requires ``modify'' privilege"),
    (mit.KADM5_AUTH_DELETE, "Operation requires ``delete'' privilege"),
    (mit.KADM5_AUTH_INSUFFICIENT, "Insufficient authorization for operation"),
    (mit.KADM5_BAD_DB, "Database inconsistency detected"),
    (mit.KADM5_DUP, "Principal or policy already exists"),
    (mit.KADM5_RPC_ERROR, "Communication failure with server"),
    (mit.KADM5_NO_SRV, "No administration server found for realm"),
    (mit.KADM5_BAD_HIST_KEY, "Password history principal key version mismatch"),
    (mit.KADM5_NOT_INIT, "Connection to server not initialized"),
    (mit.KADM5_UNK_PRINC, "Principal does not exist"),
    (mit.KADM5_UNK_POLICY, "Policy does not exist"),
    (mit.KADM5_BAD_MASK, "Invalid field mask for operation"),
    (mit.KADM5_BAD_CLASS, "Invalid number of character classes"),
    (mit.KADM5_BAD_LENGTH, "Invalid password length"),
    (mit.KADM5_BAD_POLICY, "Illegal policy name"),
    (mit.KADM5_BAD_PRINCIPAL, "Illegal principal name"),
    (mit.KADM5_BAD_AUX_ATTR, "Invalid auxillary attributes"),
    (mit.KADM5_BAD_HISTORY, "Invalid password history count"),
    (mit.KADM5_BAD_MIN_PASS_LIFE,
      "Password minimum life is greater then password maximum life"),
    (mit.KADM5_PASS_Q_TOOSHORT, "Password is too short"),
    (mit.KADM5_PASS_Q_CLASS, "Password does not contain enough character classes"),
    (mit.KADM5_PASS_Q_DICT, "Password is in the password dictionary"),
    (mit.KADM5_PASS_REUSE, "Cannot reuse password"),
    (mit.KADM5_PASS_TOOSOON, "Current password's minimum life has not expired"),
    (mit.KADM5_POLICY_REF, "Policy is in use"),
    (mit.KADM5_INIT, "Connection to server already initialized"),
    (mit.KADM5_BAD_PASSWORD, "Incorrect password"),
    (mit.KADM5_PROTECT_PRINCIPAL, "Cannot change protected principal"),
    (mit.KADM5_BAD_SERVER_HANDLE, "Programmer error! Bad Admin server handle"),
    (mit.KADM5_BAD_STRUCT_VERSION, "Programmer error! Bad API structure version"),
    (mit.KADM5_OLD_STRUCT_VERSION,
      "API structure version specified by application is no longer supported (to fix, recompile application against current Admin API header files and libraries)"),
    (mit.KADM5_NEW_STRUCT_VERSION,
      "API structure version specified by application is unknown to libraries (to fix, obtain current Admin API header files and libraries and recompile application)"),
    (mit.KADM5_BAD_API_VERSION, "Programmer error! Bad API version"),
    (mit.KADM5_OLD_LIB_API_VERSION,
      "API version specified by application is no longer supported by libraries (to fix, update application to adhere to current API version and recompile)"),
    (mit.KADM5_OLD_SERVER_API_VERSION,
      "API version specified by application is no longer supported by server (to fix, update application to adhere to current API version and recompile)"),
    (mit.KADM5_NEW_LIB_API_VERSION,
      "API version specified by application is unknown to libraries (to fix, obtain current Admin API header files and libraries and recompile application)"),
    (mit.KADM5_NEW_SERVER_API_VERSION,
      "API version specified by application is unknown to server (to fix, obtain and install newest Admin Server)"),
    (mit.KADM5_SECURE_PRINC_MISSING, "Database error! Required principal missing"),
    (mit.KADM5_NO_RENAME_SALT,
      "The salt type of the specified principal does not support renaming"),
    (mit.KADM5_BAD_CLIENT_PARAMS,
      "Illegal configuration parameter for remote KADM5 client"),
    (mit.KADM5_BAD_SERVER_PARAMS,
      "Illegal configuration parameter for local KADM5 client."),
    (mit.KADM5_AUTH_LIST, "Operation requires ``list'' privilege"),
    (mit.KADM5_AUTH_CHANGEPW, "Operation requires ``change-password'' privilege"),
    (mit.KADM5_GSS_ERROR, "GSS-API (or Kerberos) error"),
    (mit.KADM5_BAD_TL_TYPE, "Programmer error! Illegal tagged data list element type"),
    (mit.KADM5_MISSING_CONF_PARAMS, "Required parameters in kdc.conf missing"),
    (mit.KADM5_BAD_SERVER_NAME, "Bad krb5 admin server hostname"),
    (mit.KADM5_AUTH_SETKEY, "Operation requires ``set-key'' privilege"),
    (mit.KADM5_SETKEY_DUP_ENCTYPES, "Multiple values for single or folded enctype"),
    (mit.KADM5_SETV4KEY_INVAL_ENCTYPE, "Invalid enctype for setv4key"),
    (mit.KADM5_SETKEY3_ETYPE_MISMATCH, "Mismatched enctypes for setkey3"),
    (mit.KADM5_MISSING_KRB5_CONF_PARAMS,
      "Missing parameters in krb5.conf required for kadmin client"),
    (mit.KADM5_XDR_FAILURE, "XDR encoding error"),
    (mit.KADM5_CANT_RESOLVE, ""),
    (mit.KADM5_PASS_Q_GENERIC, "Database synchronization failed") ]

/-- `kadm5_ret_t_escape_hatch` (`error.rs` lines 112-220): the OK sentinel maps
to success; a Heimdal-family library delegates to the krb5 path (the `i64` code
cast to the `i32` `krb5_error_code`); an MIT-family library matches `code as
u32` against the static message table, returning `Error::KAdmin` with the
original code and the matched message, and otherwise falls back to the krb5
path with the code cast to `i32`. -/
def kadm5_ret_t_escape_hatch (context : Context) (code : Int) :
    Except Error Unit :=
  if code = KADM5_OK then .ok ()
  else if context.library.is_heimdal then
    krb5_error_code_escape_hatch context (toI32 code)
  else
    match mitKadm5Messages.lookup (toU32 code) with
    | some message => .error (.kadmin code message)
    | none => krb5_error_code_escape_hatch context (toI32 code)

/-! ## Basic facts about the casts and the message table -/

theorem toI32_eq_zero_iff (x : Int) : toI32 x = 0 ↔ toU32 x = 0 := by
  unfold toI32 toU32
  omega

theorem toU32_zero : toU32 0 = 0 := by
  unfold toU32
  omega

theorem lookup_zero_none : mitKadm5Messages.lookup 0 = none := by decide

/-- An example MIT-family context: client library loaded from the conventional
fallback filename, with a constant error-message oracle. -/
def mitExampleContext : Context :=
  { library := .mitClient ⟨.file "libkadm5clnt_mit.so"⟩,
    errMsg := fun _ => "No error" }

/-- An example Heimdal-family context. -/
def heimdalExampleContext : Context :=
  { library := .heimdalClient ⟨.file "libkadm5clnt.so"⟩,
    errMsg := fun _ => "No error" }

/-- C2 counterexample: `kadm5_ret_t_escape_hatch` does not return success
exactly for the OK sentinel.  The code `2^32` (a valid, non-OK `kadm5_ret_t`
value) is reported as success on an MIT-family library, because the fallback
krb5 path receives the code truncated to 32 bits, which is `0`. -/
theorem kadm5_ret_t_escape_hatch_nonzero_success :
    kadm5_ret_t_escape_hatch mitExampleContext (2 ^ 32) = .ok () ∧
      (2 ^ 32 : Int) ≠ KADM5_OK := by
  constructor
  · rfl
  · decide

/-- C2 (amended): `kadm5_ret_t_escape_hatch` returns success exactly when the
code's low 32 bits are the OK sentinel; otherwise a Heimdal-family library
delegates to the krb5 path with the code truncated to `i32`, and an MIT-family
library maps codes whose low 32 bits (read unsigned) match a known
kadm5-specific code to that code's fixed static message — as a `KAdmin` error
carrying the original code — and falls back to the krb5 path (code truncated to
`i32`) for all other codes. -/
theorem kadm5_ret_t_escape_hatch_spec (context : Context) (code : Int) :
    kadm5_ret_t_escape_hatch context code =
      if toU32 code = 0 then .ok ()
      else if context.library.is_heimdal then
        krb5_error_code_escape_hatch context (toI32 code)
      else
        match mitKadm5Messages.lookup (toU32 code) with
        | some message => .error (.kadmin code message)
        | none => krb5_error_code_escape_hatch context (toI32 code) := by
  by_cases h0 : toU32 code = 0
  · have hI : toI32 code = 0 := (toI32_eq_zero_iff code).mpr h0
    by_cases hc : code = 0
    · subst hc
      simp [kadm5_ret_t_escape_hatch, KADM5_OK, toU32_zero]
    · simp only [kadm5_ret_t_escape_hatch, KADM5_OK, hc, if_false, h0, if_true,
        if_pos, krb5_error_code_escape_hatch, KRB5_OK, hI]
      cases hH : context.library.is_heimdal
      · simp only [Bool.false_eq_true, if_false]
        rw [lookup_zero_none]
      · simp
  · have hc : code ≠ 0 := by
      intro h
      exact h0 (h ▸ toU32_zero)
    simp only [kadm5_ret_t_escape_hatch, KADM5_OK, hc, if_false, h0]

/-! ## `KAdmin::get_principal` (`src/kadmin/src/kadmin.rs` lines 686-785) -/

/-- Whether `CString::new` on `s` fails: it does exactly when the string holds
an interior NUL byte. -/
def containsNul (s : String) : Bool := s.data.any (fun c => c = '\x00')

/-- Oracle for the native calls `KAdmin::get_principal` makes: the return
codes of `krb5_parse_name`, `krb5_unparse_name` and `kadm5_get_principal`, the
outcome of the `Principal::from_raw_*` field conversion (the principal data
model itself is outside the verified core, so a successful conversion is
represented by `Unit`), and the return code of `kadm5_free_principal_ent`. -/
structure GetPrincipalCalls where
  parseCode : Int
  unparseCode : Int
  getCode : Int
  ent : Except Error Unit
  freeEntCode : Int

/-- `KAdmin::get_principal`: parse the name, unparse it (canonical round
trip), call the native `kadm5_get_principal`, free the temporary principal;
on MIT the `KADM5_UNK_PRINC` return code (compared as an exact `i64`) becomes
`Ok(None)` before the escape hatch runs; on Heimdal that translation is absent
(commented out behind a `TODO` in the source) and every non-OK code goes
through the escape hatch; then convert the entry and (MIT only) check the code
of `kadm5_free_principal_ent` (Heimdal discards it). -/
def get_principal_mit (context : Context) (name : String)
    (o : GetPrincipalCalls) : Except Error (Option Unit) :=
  if containsNul name then .error .stringConversion
  else match krb5_error_code_escape_hatch context o.parseCode with
    | .error e => .error e
    | .ok _ =>
      match krb5_error_code_escape_hatch context o.unparseCode with
      | .error e => .error e
      | .ok _ =>
        if o.getCode = mit.KADM5_UNK_PRINC then .ok none
        else match kadm5_ret_t_escape_hatch context o.getCode with
          | .error e => .error e
          | .ok _ =>
            match o.ent with
            | .error e => .error e
            | .ok _ =>
              match kadm5_ret_t_escape_hatch context o.freeEntCode with
              | .error e => .error e
              | .ok _ => .ok (some ())

def get_principal_heimdal (context : Context) (name : String)
    (o : GetPrincipalCalls) : Except Error (Option Unit) :=
  if containsNul name then .error .stringConversion
  else match krb5_error_code_escape_hatch context o.parseCode with
    | .error e => .error e
    | .ok _ =>
      match krb5_error_code_escape_hatch context o.unparseCode with
      | .error e => .error e
      | .ok _ =>
        match kadm5_ret_t_escape_hatch context o.getCode with
        | .error e => .error e
        | .ok _ =>
          match o.ent with
          | .error e => .error e
          | .ok _ => .ok (some ())

def get_principal (context : Context) (name : String) (o : GetPrincipalCalls) :
    Except Error (Option Unit) :=
  match context.library with
  | .mitClient _ | .mitServer _ => get_principal_mit context name o
  | .heimdalClient _ | .heimdalServer _ => get_principal_heimdal context name o

theorem kadm5_escape_ok_iff (context : Context) (code : Int) :
    kadm5_ret_t_escape_hatch context code = .ok () ↔ toU32 code = 0 := by
  constructor
  · intro h
    unfold kadm5_ret_t_escape_hatch at h
    split at h
    · rename_i hc
      rw [hc]
      exact toU32_zero
    · split at h
      · unfold krb5_error_code_escape_hatch at h
        split at h
        · rename_i hI
          exact (toI32_eq_zero_iff code).mp hI
        · exact absurd h (by simp)
      · split at h
        · exact absurd h (by simp)
        · unfold krb5_error_code_escape_hatch at h
          split at h
          · rename_i hI
            exact (toI32_eq_zero_iff code).mp hI
          · exact absurd h (by simp)
  · intro h0
    have hI : toI32 code = 0 := (toI32_eq_zero_iff code).mpr h0
    unfold kadm5_ret_t_escape_hatch
    split
    · rfl
    · split
      · simp [krb5_error_code_escape_hatch, hI, KRB5_OK]
      · rw [h0, lookup_zero_none]
        simp [krb5_error_code_escape_hatch, hI, KRB5_OK]

theorem get_principal_mit_ok_none_iff (context : Context) (name : String)
    (o : GetPrincipalCalls) :
    get_principal_mit context name o = .ok none ↔
      containsNul name = false ∧ o.parseCode = KRB5_OK ∧
        o.unparseCode = KRB5_OK ∧ o.getCode = mit.KADM5_UNK_PRINC := by
  cases hn : containsNul name
  · by_cases hp : o.parseCode = KRB5_OK
    · by_cases hu : o.unparseCode = KRB5_OK
      · by_cases hg : o.getCode = mit.KADM5_UNK_PRINC
        · simp [get_principal_mit, hn, hp, hu, hg, krb5_error_code_escape_hatch]
        · simp only [get_principal_mit, hn, Bool.false_eq_true, if_false,
            krb5_error_code_escape_hatch, hp, hu, if_pos, hg]
          rcases hk : kadm5_ret_t_escape_hatch context o.getCode with e | u
          · simp [hg]
          · rcases he : o.ent with e | v
            · simp [hg]
            · rcases hf : kadm5_ret_t_escape_hatch context o.freeEntCode with e | w
              · simp [hg]
              · simp [hg]
      · simp [get_principal_mit, hn, hp, hu, krb5_error_code_escape_hatch]
    · simp [get_principal_mit, hn, hp, krb5_error_code_escape_hatch]
  · simp [get_principal_mit, hn]

theorem get_principal_heimdal_never_none (context : Context) (name : String)
    (o : GetPrincipalCalls) :
    get_principal_heimdal context name o ≠ .ok none := by
  unfold get_principal_heimdal
  split
  · simp
  · split
    · simp
    · split
      · simp
      · split
        · simp
        · split <;> simp

theorem get_principal_heimdal_not_ok (context : Context) (name : String)
    (o : GetPrincipalCalls) (hg : toU32 o.getCode ≠ 0) :
    ∃ e, get_principal_heimdal context name o = .error e := by
  have hke : ∀ u, kadm5_ret_t_escape_hatch context o.getCode ≠ .ok u := by
    intro u h
    cases u
    exact hg ((kadm5_escape_ok_iff context o.getCode).mp h)
  unfold get_principal_heimdal
  split
  · exact ⟨_, rfl⟩
  · split
    · exact ⟨_, rfl⟩
    · split
      · exact ⟨_, rfl⟩
      · split
        · exact ⟨_, rfl⟩
        · rename_i u hk
          exact absurd hk (hke u)

/-- C9: on an MIT-family library `get_principal` returns `Ok(None)` exactly
when the native `kadm5_get_principal` call runs (name convertible, parse and
unparse succeed) and returns `KADM5_UNK_PRINC`; on a Heimdal-family library an
absent result is never produced, and the unknown-principal code surfaces as an
error instead. -/
theorem get_principal_unknown_principal (context : Context) (name : String)
    (o : GetPrincipalCalls) :
    (context.library.is_mit = true →
      (get_principal context name o = .ok none ↔
        containsNul name = false ∧ o.parseCode = KRB5_OK ∧
          o.unparseCode = KRB5_OK ∧ o.getCode = mit.KADM5_UNK_PRINC))
    ∧ (context.library.is_heimdal = true →
        get_principal context name o ≠ .ok none)
    ∧ (context.library.is_heimdal = true → o.getCode = mit.KADM5_UNK_PRINC →
        ∃ e, get_principal context name o = .error e) := by
  obtain ⟨lib, realm, errMsg⟩ := context
  cases lib <;>
    simp only [get_principal, Library.is_mit, Library.is_heimdal,
      Bool.false_eq_true, false_implies, true_implies, true_and, and_true] <;>
  first
  | exact get_principal_mit_ok_none_iff _ name o
  | exact ⟨get_principal_heimdal_never_none _ name o,
      fun hg => get_principal_heimdal_not_ok _ name o (by rw [hg]; decide)⟩

/-- Example oracle: every call succeeds except `kadm5_get_principal`, which
returns `KADM5_UNK_PRINC`. -/
def gpOracleUnk : GetPrincipalCalls :=
  { parseCode := 0, unparseCode := 0, getCode := mit.KADM5_UNK_PRINC,
    ent := .ok (), freeEntCode := 0 }

/-- C9 witness: with every preceding call succeeding and the native get
returning `KADM5_UNK_PRINC`, an MIT-family session yields `Ok(None)` while a
Heimdal-family session does not. -/
theorem get_principal_unknown_principal_witness :
    get_principal mitExampleContext "user@EXAMPLE.ORG" gpOracleUnk
        = .ok none ∧
      get_principal heimdalExampleContext "user@EXAMPLE.ORG" gpOracleUnk
        ≠ .ok none :=
  ⟨((get_principal_unknown_principal mitExampleContext "user@EXAMPLE.ORG"
        gpOracleUnk).1 rfl).mpr ⟨by decide, rfl, rfl, rfl⟩,
    (get_principal_unknown_principal heimdalExampleContext "user@EXAMPLE.ORG"
        gpOracleUnk).2.1 rfl⟩

/-! ## `Params` (`src/kadmin/src/params.rs`)

String-typed native fields are backed by owned `CString` buffers; a buffer is
modelled as an abstract heap address plus its contents, and a native `char *`
field as an `Option Nat` address (`none` is the null pointer).  Allocation is
modelled by handing each construction a fresh base address; Rust guarantees
distinct live allocations, which theorems state as freshness hypotheses. -/

/-- An owned NUL-terminated buffer backing a `CString`: heap address plus
contents (without the terminator; `CString::new` guarantees no interior NUL).
-/
structure CStringBuf where
  addr : Nat
  contents : String
deriving DecidableEq, Repr

/-- `Option<String>.map(CString::new).transpose()?` at address `next`: `none`
allocates nothing, a present string with an interior NUL fails, otherwise a
fresh buffer is allocated at `next`. -/
def allocOpt (s : Option String) (next : Nat) :
    Except Error (Option CStringBuf × Nat) :=
  match s with
  | none => .ok (none, next)
  | some str =>
    if containsNul str then .error .stringConversion
    else .ok (some ⟨next, str⟩, next + 1)

namespace mit

/-- Modelled from the spec: the `sys::mit::KADM5_CONFIG_*` mask bits come from
generated bindings not under `src/`; values are MIT krb5's `kadm5/admin.h`
(the repository's own tests pin `mask == 1` for realm-only and `0x94001` for
realm + admin server + both ports). -/
def KADM5_CONFIG_REALM : Int := 0x1

def KADM5_CONFIG_DBNAME : Int := 0x2

def KADM5_CONFIG_STASH_FILE : Int := 0x100

def KADM5_CONFIG_ACL_FILE : Int := 0x2000

def KADM5_CONFIG_KADMIND_PORT : Int := 0x4000

def KADM5_CONFIG_ADMIN_SERVER : Int := 0x10000

def KADM5_CONFIG_DICT_FILE : Int := 0x20000

def KADM5_CONFIG_KPASSWD_PORT : Int := 0x80000

end mit

namespace heimdal

/-- Modelled from the spec: the `sys::heimdal::KADM5_CONFIG_*` mask bits come
from generated bindings not under `src/`; values are Heimdal's
`kadm5/admin.h` (the repository's own tests pin `mask == 1` for realm-only and
`0xd` for realm + admin server + kadmind port). -/
def KADM5_CONFIG_REALM : Int := 1

def KADM5_CONFIG_KADMIND_PORT : Int := 4

def KADM5_CONFIG_ADMIN_SERVER : Int := 8

def KADM5_CONFIG_DBNAME : Int := 16

def KADM5_CONFIG_ACL_FILE : Int := 128

def KADM5_CONFIG_STASH_FILE : Int := 1024

end heimdal

/-- The native `sys::mit::kadm5_config_params` struct: string pointers are
`Option Nat` buffer addresses, integers are `Int`. -/
structure KadmConfigParamsMit where
  mask : Int
  realm : Option Nat
  kadmind_port : Int
  kpasswd_port : Int
  admin_server : Option Nat
  dbname : Option Nat
  acl_file : Option Nat
  dict_file : Option Nat
  mkey_from_kbd : Int
  stash_file : Option Nat
  mkey_name : Option Nat
  enctype : Int
  max_life : Int
  max_rlife : Int
  expiration : Int
  flags : Int
  keysalts : Option Nat
  num_keysalts : Int
  kvno : Int
  iprop_enabled : Int
  iprop_ulogsize : Int
  iprop_poll_time : Int
  iprop_logfile : Option Nat
  iprop_port : Int
  iprop_resync_timeout : Int
  kadmind_listen : Option Nat
  kpasswd_listen : Option Nat
  iprop_listen : Option Nat
deriving DecidableEq, Repr

/-- The native `sys::heimdal::kadm5_config_params` struct. -/
structure KadmConfigParamsHeimdal where
  mask : Int
  realm : Option Nat
  kadmind_port : Int
  admin_server : Option Nat
  dbname : Option Nat
  acl_file : Option Nat
  stash_file : Option Nat
  readonly_admin_server : Option Nat
  readonly_kadmind_port : Int
deriving DecidableEq, Repr

/-- `ParamsMit`: the native struct coupled with the owned backing buffers its
string pointers point into. -/
structure ParamsMit where
  params : KadmConfigParamsMit
  _realm : Option CStringBuf
  _admin_server : Option CStringBuf
  _dbname : Option CStringBuf
  _acl_file : Option CStringBuf
  _dict_file : Option CStringBuf
  _stash_file : Option CStringBuf
deriving DecidableEq, Repr

/-- `ParamsHeimdal`: the native struct coupled with its backing buffers. -/
structure ParamsHeimdal where
  params : KadmConfigParamsHeimdal
  _realm : Option CStringBuf
  _admin_server : Option CStringBuf
  _dbname : Option CStringBuf
  _acl_file : Option CStringBuf
  _stash_file : Option CStringBuf
deriving DecidableEq, Repr

/-- `ParamsInner` -/
inductive ParamsInner where
  | mit (p : ParamsMit)
  | heimdal (p : ParamsHeimdal)
deriving DecidableEq, Repr

/-- `Params` -/
structure Params where
  inner : ParamsInner
deriving DecidableEq, Repr

/-- `ParamsBuilder` (`params.rs` lines 232-256): accumulated optional fields
plus the mask kept in lock-step by every setter. -/
structure ParamsBuilder where
  variant : KAdm5Variant
  mask : Int
  realm : Option String
  kadmind_port : Int
  kpasswd_port : Int
  admin_server : Option String
  dbname : Option String
  acl_file : Option String
  dict_file : Option String
  stash_file : Option String
deriving DecidableEq, Repr

/-- `ParamsBuilder::new` (`params.rs` lines 259-274). -/
def ParamsBuilder.new (variant : KAdm5Variant) : ParamsBuilder :=
  { variant := variant, mask := 0, realm := none, kadmind_port := 0,
    kpasswd_port := 0, admin_server := none, dbname := none, acl_file := none,
    dict_file := none, stash_file := none }

/-- `ParamsBuilder::realm` (`params.rs` lines 277-288): stores the string and
ORs the family's realm-config bit into the mask.  (Named `realm_set` because
the field projection already uses the source name.) -/
def ParamsBuilder.realm_set (b : ParamsBuilder) (realm : String) :
    ParamsBuilder :=
  { b with
    realm := some realm,
    mask := Int.lor b.mask (match b.variant with
      | .mitClient | .mitServer => mit.KADM5_CONFIG_REALM
      | .heimdalClient | .heimdalServer => heimdal.KADM5_CONFIG_REALM) }

/-- `ParamsBuilder::build_mit` (`params.rs` lines 398-472): allocate one owned
C string per present field, in source order (realm, admin server, dbname, acl
file, dict file, stash file), then build the native struct with pointers into
those buffers, the accumulated mask, the two ports, and every other field
zero/null. -/
def ParamsBuilder.build_mit (b : ParamsBuilder) (base : Nat) :
    Except Error ParamsMit :=
  match allocOpt b.realm base with
  | .error e => .error e
  | .ok (_realm, next) =>
    match allocOpt b.admin_server next with
    | .error e => .error e
    | .ok (_admin_server, next) =>
      match allocOpt b.dbname next with
      | .error e => .error e
      | .ok (_dbname, next) =>
        match allocOpt b.acl_file next with
        | .error e => .error e
        | .ok (_acl_file, next) =>
          match allocOpt b.dict_file next with
          | .error e => .error e
          | .ok (_dict_file, next) =>
            match allocOpt b.stash_file next with
            | .error e => .error e
            | .ok (_stash_file, _) =>
              .ok
                { params :=
                    { mask := b.mask,
                      realm := _realm.map CStringBuf.addr,
                      kadmind_port := b.kadmind_port,
                      kpasswd_port := b.kpasswd_port,
                      admin_server := _admin_server.map CStringBuf.addr,
                      dbname := _dbname.map CStringBuf.addr,
                      acl_file := _acl_file.map CStringBuf.addr,
                      dict_file := _dict_file.map CStringBuf.addr,
                      mkey_from_kbd := 0,
                      stash_file := _stash_file.map CStringBuf.addr,
                      mkey_name := none, enctype := 0, max_life := 0,
                      max_rlife := 0, expiration := 0, flags := 0,
                      keysalts := none, num_keysalts := 0, kvno := 0,
                      iprop_enabled := 0, iprop_ulogsize := 0,
                      iprop_poll_time := 0, iprop_logfile := none,
                      iprop_port := 0, iprop_resync_timeout := 0,
                      kadmind_listen := none, kpasswd_listen := none,
                      iprop_listen := none },
                  _realm := _realm, _admin_server := _admin_server,
                  _dbname := _dbname, _acl_file := _acl_file,
                  _dict_file := _dict_file, _stash_file := _stash_file }

/-- `ParamsBuilder::build_heimdal` (`params.rs` lines 476-525): like
`build_mit` but for the Heimdal struct shape (no dict file, no kpasswd port).
-/
def ParamsBuilder.build_heimdal (b : ParamsBuilder) (base : Nat) :
    Except Error ParamsHeimdal :=
  match allocOpt b.realm base with
  | .error e => .error e
  | .ok (_realm, next) =>
    match allocOpt b.admin_server next with
    | .error e => .error e
    | .ok (_admin_server, next) =>
      match allocOpt b.dbname next with
      | .error e => .error e
      | .ok (_dbname, next) =>
        match allocOpt b.acl_file next with
        | .error e => .error e
        | .ok (_acl_file, next) =>
          match allocOpt b.stash_file next with
          | .error e => .error e
          | .ok (_stash_file, _) =>
            .ok
              { params :=
                  { mask := b.mask,
                    realm := _realm.map CStringBuf.addr,
                    kadmind_port := b.kadmind_port,
                    admin_server := _admin_server.map CStringBuf.addr,
                    dbname := _dbname.map CStringBuf.addr,
                    acl_file := _acl_file.map CStringBuf.addr,
                    stash_file := _stash_file.map CStringBuf.addr,
                    readonly_admin_server := none,
                    readonly_kadmind_port := 0 },
                _realm := _realm, _admin_server := _admin_server,
                _dbname := _dbname, _acl_file := _acl_file,
                _stash_file := _stash_file }

/-- `ParamsBuilder::build` (`params.rs` lines 528-539): dispatch on the
builder's variant. -/
def ParamsBuilder.build (b : ParamsBuilder) (base : Nat) :
    Except Error Params :=
  match b.variant with
  | .mitClient | .mitServer =>
    match b.build_mit base with
    | .error e => .error e
    | .ok p => .ok { inner := .mit p }
  | .heimdalClient | .heimdalServer =>
    match b.build_heimdal base with
    | .error e => .error e
    | .ok p => .ok { inner := .heimdal p }

/-- The live backing buffers of a `ParamsMit` (the pointees its native struct
may refer to). -/
def ParamsMit.bufs (p : ParamsMit) : List CStringBuf :=
  [p._realm, p._admin_server, p._dbname, p._acl_file, p._dict_file,
    p._stash_file].filterMap id

/-- Reading the C string at address `a` out of `p`'s own backing storage:
`CStr::from_ptr` on a pointer into one of the owned buffers yields that
buffer's contents. -/
def ParamsMit.readString (p : ParamsMit) (a : Nat) : Option String :=
  (p.bufs.find? (fun b => b.addr = a)).map CStringBuf.contents

/-- The live backing buffers of a `ParamsHeimdal`. -/
def ParamsHeimdal.bufs (p : ParamsHeimdal) : List CStringBuf :=
  [p._realm, p._admin_server, p._dbname, p._acl_file, p._stash_file].filterMap
    id

/-- Reading the C string at address `a` out of `p`'s own backing storage. -/
def ParamsHeimdal.readString (p : ParamsHeimdal) (a : Nat) : Option String :=
  (p.bufs.find? (fun b => b.addr = a)).map CStringBuf.contents

/-- The native struct's mask, for either variant family. -/
def Params.mask : Params → Int
  | ⟨.mit p⟩ => p.params.mask
  | ⟨.heimdal p⟩ => p.params.mask

/-- The native struct's realm pointer, for either variant family. -/
def Params.realmPtr : Params → Option Nat
  | ⟨.mit p⟩ => p.params.realm
  | ⟨.heimdal p⟩ => p.params.realm

/-- Reading the C string at `a` from the value's own backing storage. -/
def Params.readString : Params → Nat → Option String
  | ⟨.mit p⟩, a => p.readString a
  | ⟨.heimdal p⟩, a => p.readString a

/-- The family's `KADM5_CONFIG_REALM` mask bit. -/
def realmConfigBit : KAdm5Variant → Int
  | .mitClient | .mitServer => mit.KADM5_CONFIG_REALM
  | .heimdalClient | .heimdalServer => heimdal.KADM5_CONFIG_REALM

/-- C5: for every realm string (an interior NUL makes `CString::new`, and so
the build, fail with a conversion error instead), building `Params` with that
realm yields a native struct whose realm pointer reads back, through the
value's own backing buffers, as exactly the original string, and whose mask
has the family's realm-config bit set; building with no fields set yields mask
zero. -/
theorem params_realm_roundtrip (variant : KAdm5Variant) (realm : String)
    (base : Nat) (h : containsNul realm = false) :
    (∃ pr : Params,
      ((ParamsBuilder.new variant).realm_set realm).build base = .ok pr
        ∧ ∃ a, pr.realmPtr = some a ∧ pr.readString a = some realm
            ∧ Int.land pr.mask (realmConfigBit variant) = realmConfigBit variant)
    ∧ ∀ pr : Params, (ParamsBuilder.new variant).build base = .ok pr →
        pr.mask = 0 := by
  cases variant <;>
    constructor <;>
    simp [ParamsBuilder.new, ParamsBuilder.realm_set, ParamsBuilder.build,
      ParamsBuilder.build_mit, ParamsBuilder.build_heimdal, allocOpt, h,
      Params.realmPtr, Params.readString, Params.mask, ParamsMit.readString,
      ParamsHeimdal.readString, ParamsMit.bufs, ParamsHeimdal.bufs,
      realmConfigBit, mit.KADM5_CONFIG_REALM, heimdal.KADM5_CONFIG_REALM,
      List.find?] <;>
    decide

/-- C5 witness: the round trip at realm `EXAMPLE.ORG`, base address 0, MIT
client variant. -/
theorem params_realm_roundtrip_witness :
    ∃ pr : Params,
      ((ParamsBuilder.new .mitClient).realm_set "EXAMPLE.ORG").build 0 = .ok pr
        ∧ ∃ a, pr.realmPtr = some a ∧ pr.readString a = some "EXAMPLE.ORG"
            ∧ Int.land pr.mask (realmConfigBit .mitClient)
                = realmConfigBit .mitClient :=
  (params_realm_roundtrip .mitClient "EXAMPLE.ORG" 0 (by decide)).1

/-- `Option<CString>::clone`: duplicating a present backing buffer allocates a
fresh buffer (at `next`) with the same contents. -/
def cloneOpt (b : Option CStringBuf) (next : Nat) :
    Option CStringBuf × Nat :=
  match b with
  | none => (none, next)
  | some buf => (some ⟨next, buf.contents⟩, next + 1)

/-- Addresses of the live backing buffers of a `ParamsMit`. -/
def ParamsMit.bufAddrs (p : ParamsMit) : List Nat :=
  p.bufs.map CStringBuf.addr

/-- Addresses of the live backing buffers of a `ParamsHeimdal`. -/
def ParamsHeimdal.bufAddrs (p : ParamsHeimdal) : List Nat :=
  p.bufs.map CStringBuf.addr

/-- The pointer-coupling invariant of `ParamsMit` (every value the crate
constructs satisfies it): each native string pointer equals the address of the
corresponding owned buffer (null when absent), and every field not managed by
the builder is zero/null. -/
def ParamsMit.wfb (p : ParamsMit) : Bool :=
  (p.params.realm == p._realm.map CStringBuf.addr) &&
  (p.params.admin_server == p._admin_server.map CStringBuf.addr) &&
  (p.params.dbname == p._dbname.map CStringBuf.addr) &&
  (p.params.acl_file == p._acl_file.map CStringBuf.addr) &&
  (p.params.dict_file == p._dict_file.map CStringBuf.addr) &&
  (p.params.stash_file == p._stash_file.map CStringBuf.addr) &&
  (p.params.mkey_from_kbd == 0) && (p.params.mkey_name == none) &&
  (p.params.enctype == 0) && (p.params.max_life == 0) &&
  (p.params.max_rlife == 0) && (p.params.expiration == 0) &&
  (p.params.flags == 0) && (p.params.keysalts == none) &&
  (p.params.num_keysalts == 0) && (p.params.kvno == 0) &&
  (p.params.iprop_enabled == 0) && (p.params.iprop_ulogsize == 0) &&
  (p.params.iprop_poll_time == 0) && (p.params.iprop_logfile == none) &&
  (p.params.iprop_port == 0) && (p.params.iprop_resync_timeout == 0) &&
  (p.params.kadmind_listen == none) && (p.params.kpasswd_listen == none) &&
  (p.params.iprop_listen == none)

/-- The pointer-coupling invariant of `ParamsHeimdal`. -/
def ParamsHeimdal.wfb (p : ParamsHeimdal) : Bool :=
  (p.params.realm == p._realm.map CStringBuf.addr) &&
  (p.params.admin_server == p._admin_server.map CStringBuf.addr) &&
  (p.params.dbname == p._dbname.map CStringBuf.addr) &&
  (p.params.acl_file == p._acl_file.map CStringBuf.addr) &&
  (p.params.stash_file == p._stash_file.map CStringBuf.addr) &&
  (p.params.readonly_admin_server == none) &&
  (p.params.readonly_kadmind_port == 0)

/-- `Clone for ParamsMit` (`params.rs` lines 47-120): clone the six owned
buffers (in source order), rebuild the native struct with pointers into the
clones, copy mask and the two ports, and set every other field zero/null. -/
def cloneParamsMit (p : ParamsMit) (base : Nat) : ParamsMit :=
  let c1 := cloneOpt p._realm base
  let c2 := cloneOpt p._admin_server c1.2
  let c3 := cloneOpt p._dbname c2.2
  let c4 := cloneOpt p._acl_file c3.2
  let c5 := cloneOpt p._dict_file c4.2
  let c6 := cloneOpt p._stash_file c5.2
  { params :=
      { mask := p.params.mask,
        realm := c1.1.map CStringBuf.addr,
        kadmind_port := p.params.kadmind_port,
        kpasswd_port := p.params.kpasswd_port,
        admin_server := c2.1.map CStringBuf.addr,
        dbname := c3.1.map CStringBuf.addr,
        acl_file := c4.1.map CStringBuf.addr,
        mkey_from_kbd := 0,
        dict_file := c5.1.map CStringBuf.addr,
        stash_file := c6.1.map CStringBuf.addr,
        mkey_name := none, enctype := 0, max_life := 0, max_rlife := 0,
        expiration := 0, flags := 0, keysalts := none, num_keysalts := 0,
        kvno := 0, iprop_enabled := 0, iprop_ulogsize := 0,
        iprop_poll_time := 0, iprop_logfile := none, iprop_port := 0,
        iprop_resync_timeout := 0, kadmind_listen := none,
        kpasswd_listen := none, iprop_listen := none },
    _realm := c1.1, _admin_server := c2.1, _dbname := c3.1,
    _acl_file := c4.1, _dict_file := c5.1, _stash_file := c6.1 }

/-- `Clone for ParamsHeimdal` (`params.rs` lines 151-199). -/
def cloneParamsHeimdal (p : ParamsHeimdal) (base : Nat) : ParamsHeimdal :=
  let c1 := cloneOpt p._realm base
  let c2 := cloneOpt p._admin_server c1.2
  let c3 := cloneOpt p._dbname c2.2
  let c4 := cloneOpt p._acl_file c3.2
  let c5 := cloneOpt p._stash_file c4.2
  { params :=
      { mask := p.params.mask,
        realm := c1.1.map CStringBuf.addr,
        kadmind_port := p.params.kadmind_port,
        admin_server := c2.1.map CStringBuf.addr,
        dbname := c3.1.map CStringBuf.addr,
        acl_file := c4.1.map CStringBuf.addr,
        stash_file := c5.1.map CStringBuf.addr,
        readonly_admin_server := none, readonly_kadmind_port := 0 },
    _realm := c1.1, _admin_server := c2.1, _dbname := c3.1,
    _acl_file := c4.1, _stash_file := c5.1 }

theorem cloneOpt_contents (b : Option CStringBuf) (n : Nat) :
    (cloneOpt b n).1.map CStringBuf.contents = b.map CStringBuf.contents := by
  cases b <;> rfl

theorem cloneOpt_snd_le (b : Option CStringBuf) (n : Nat) :
    n ≤ (cloneOpt b n).2 := by
  cases b
  · exact Nat.le_refl n
  · exact Nat.le_succ n

theorem cloneOpt_addr_ge (b : Option CStringBuf) (n : Nat) (x : CStringBuf)
    (h : (cloneOpt b n).1 = some x) : n ≤ x.addr := by
  cases b
  · exact absurd h (by simp [cloneOpt])
  · simp only [cloneOpt, Option.some.injEq] at h
    subst h
    exact Nat.le_refl n

theorem cloneParamsMit_bufs_addr_ge (p : ParamsMit) (base : Nat) :
    ∀ x ∈ (cloneParamsMit p base).bufs, base ≤ x.addr := by
  intro x hx
  have l1 := cloneOpt_snd_le p._realm base
  have l2 := cloneOpt_snd_le p._admin_server (cloneOpt p._realm base).2
  have l3 := cloneOpt_snd_le p._dbname
    (cloneOpt p._admin_server (cloneOpt p._realm base).2).2
  have l4 := cloneOpt_snd_le p._acl_file
    (cloneOpt p._dbname
      (cloneOpt p._admin_server (cloneOpt p._realm base).2).2).2
  have l5 := cloneOpt_snd_le p._dict_file
    (cloneOpt p._acl_file
      (cloneOpt p._dbname
        (cloneOpt p._admin_server (cloneOpt p._realm base).2).2).2).2
  simp only [cloneParamsMit, ParamsMit.bufs] at hx
  rw [List.mem_filterMap] at hx
  obtain ⟨o, ho, hox⟩ := hx
  simp only [List.mem_cons, List.not_mem_nil, or_false] at ho
  rcases ho with rfl | rfl | rfl | rfl | rfl | rfl
  · exact cloneOpt_addr_ge _ _ _ hox
  · exact le_trans l1 (cloneOpt_addr_ge _ _ _ hox)
  · exact le_trans (le_trans l1 l2) (cloneOpt_addr_ge _ _ _ hox)
  · exact le_trans (le_trans (le_trans l1 l2) l3) (cloneOpt_addr_ge _ _ _ hox)
  · exact le_trans (le_trans (le_trans (le_trans l1 l2) l3) l4)
      (cloneOpt_addr_ge _ _ _ hox)
  · exact le_trans (le_trans (le_trans (le_trans (le_trans l1 l2) l3) l4) l5)
      (cloneOpt_addr_ge _ _ _ hox)

theorem cloneParamsHeimdal_bufs_addr_ge (p : ParamsHeimdal) (base : Nat) :
    ∀ x ∈ (cloneParamsHeimdal p base).bufs, base ≤ x.addr := by
  intro x hx
  have l1 := cloneOpt_snd_le p._realm base
  have l2 := cloneOpt_snd_le p._admin_server (cloneOpt p._realm base).2
  have l3 := cloneOpt_snd_le p._dbname
    (cloneOpt p._admin_server (cloneOpt p._realm base).2).2
  have l4 := cloneOpt_snd_le p._acl_file
    (cloneOpt p._dbname
      (cloneOpt p._admin_server (cloneOpt p._realm base).2).2).2
  simp only [cloneParamsHeimdal, ParamsHeimdal.bufs] at hx
  rw [List.mem_filterMap] at hx
  obtain ⟨o, ho, hox⟩ := hx
  simp only [List.mem_cons, List.not_mem_nil, or_false] at ho
  rcases ho with rfl | rfl | rfl | rfl | rfl
  · exact cloneOpt_addr_ge _ _ _ hox
  · exact le_trans l1 (cloneOpt_addr_ge _ _ _ hox)
  · exact le_trans (le_trans l1 l2) (cloneOpt_addr_ge _ _ _ hox)
  · exact le_trans (le_trans (le_trans l1 l2) l3) (cloneOpt_addr_ge _ _ _ hox)
  · exact le_trans (le_trans (le_trans (le_trans l1 l2) l3) l4)
      (cloneOpt_addr_ge _ _ _ hox)

/-- C10: cloning preserves the pointer-coupling invariant — for either family
the clone's native string pointers point into the clone's own freshly
duplicated backing buffers (whose addresses are disjoint from the original's,
given a fresh allocation base), the buffer contents are duplicated unchanged,
and the mask and integer fields are copied unchanged — so the clone is valid
independently of the original's lifetime. -/
theorem params_clone_independent (base : Nat) (p : ParamsMit)
    (q : ParamsHeimdal) (_hp : p.wfb = true) (_hq : q.wfb = true)
    (hpf : ∀ a ∈ p.bufAddrs, a < base)
    (hqf : ∀ a ∈ q.bufAddrs, a < base) :
    ((cloneParamsMit p base).wfb = true
      ∧ (cloneParamsMit p base).params.mask = p.params.mask
      ∧ (cloneParamsMit p base).params.kadmind_port = p.params.kadmind_port
      ∧ (cloneParamsMit p base).params.kpasswd_port = p.params.kpasswd_port
      ∧ (∀ a ∈ (cloneParamsMit p base).bufAddrs, a ∉ p.bufAddrs)
      ∧ (cloneParamsMit p base)._realm.map CStringBuf.contents
          = p._realm.map CStringBuf.contents
      ∧ (cloneParamsMit p base)._admin_server.map CStringBuf.contents
          = p._admin_server.map CStringBuf.contents
      ∧ (cloneParamsMit p base)._dbname.map CStringBuf.contents
          = p._dbname.map CStringBuf.contents
      ∧ (cloneParamsMit p base)._acl_file.map CStringBuf.contents
          = p._acl_file.map CStringBuf.contents
      ∧ (cloneParamsMit p base)._dict_file.map CStringBuf.contents
          = p._dict_file.map CStringBuf.contents
      ∧ (cloneParamsMit p base)._stash_file.map CStringBuf.contents
          = p._stash_file.map CStringBuf.contents)
    ∧ ((cloneParamsHeimdal q base).wfb = true
      ∧ (cloneParamsHeimdal q base).params.mask = q.params.mask
      ∧ (cloneParamsHeimdal q base).params.kadmind_port
          = q.params.kadmind_port
      ∧ (∀ a ∈ (cloneParamsHeimdal q base).bufAddrs, a ∉ q.bufAddrs)
      ∧ (cloneParamsHeimdal q base)._realm.map CStringBuf.contents
          = q._realm.map CStringBuf.contents
      ∧ (cloneParamsHeimdal q base)._admin_server.map CStringBuf.contents
          = q._admin_server.map CStringBuf.contents
      ∧ (cloneParamsHeimdal q base)._dbname.map CStringBuf.contents
          = q._dbname.map CStringBuf.contents
      ∧ (cloneParamsHeimdal q base)._acl_file.map CStringBuf.contents
          = q._acl_file.map CStringBuf.contents
      ∧ (cloneParamsHeimdal q base)._stash_file.map CStringBuf.contents
          = q._stash_file.map CStringBuf.contents) := by
  refine
    ⟨⟨?_, rfl, rfl, rfl, ?_, cloneOpt_contents _ _, cloneOpt_contents _ _,
        cloneOpt_contents _ _, cloneOpt_contents _ _, cloneOpt_contents _ _,
        cloneOpt_contents _ _⟩,
      ⟨?_, rfl, rfl, ?_, cloneOpt_contents _ _, cloneOpt_contents _ _,
        cloneOpt_contents _ _, cloneOpt_contents _ _, cloneOpt_contents _ _⟩⟩
  · simp [cloneParamsMit, ParamsMit.wfb]
  · intro a ha hmem
    have hge : base ≤ a := by
      obtain ⟨x, hx, rfl⟩ :=
        List.mem_map.mp (by simpa [ParamsMit.bufAddrs] using ha)
      exact cloneParamsMit_bufs_addr_ge p base x hx
    exact absurd (hpf a hmem) (by omega)
  · simp [cloneParamsHeimdal, ParamsHeimdal.wfb]
  · intro a ha hmem
    have hge : base ≤ a := by
      obtain ⟨x, hx, rfl⟩ :=
        List.mem_map.mp (by simpa [ParamsHeimdal.bufAddrs] using ha)
      exact cloneParamsHeimdal_bufs_addr_ge q base x hx
    exact absurd (hqf a hmem) (by omega)

/-- Example `ParamsMit`: realm and admin server present, backed by buffers 0
and 1, mask and ports as an MIT build would set them. -/
def paramsMitEx : ParamsMit :=
  { params :=
      { mask := 0x14001, realm := some 0, kadmind_port := 749,
        kpasswd_port := 464, admin_server := some 1, dbname := none,
        acl_file := none, dict_file := none, mkey_from_kbd := 0,
        stash_file := none, mkey_name := none, enctype := 0, max_life := 0,
        max_rlife := 0, expiration := 0, flags := 0, keysalts := none,
        num_keysalts := 0, kvno := 0, iprop_enabled := 0, iprop_ulogsize := 0,
        iprop_poll_time := 0, iprop_logfile := none, iprop_port := 0,
        iprop_resync_timeout := 0, kadmind_listen := none,
        kpasswd_listen := none, iprop_listen := none },
    _realm := some ⟨0, "EXAMPLE.ORG"⟩,
    _admin_server := some ⟨1, "kdc.example.org"⟩,
    _dbname := none, _acl_file := none, _dict_file := none,
    _stash_file := none }

/-- Example `ParamsHeimdal`: realm present, backed by buffer 0. -/
def paramsHeimdalEx : ParamsHeimdal :=
  { params :=
      { mask := 1, realm := some 0, kadmind_port := 0, admin_server := none,
        dbname := none, acl_file := none, stash_file := none,
        readonly_admin_server := none, readonly_kadmind_port := 0 },
    _realm := some ⟨0, "EXAMPLE.ORG"⟩, _admin_server := none,
    _dbname := none, _acl_file := none, _stash_file := none }

/-- C10 witness: cloning the example values at fresh base 2 keeps the
pointer-coupling invariant. -/
theorem params_clone_independent_witness :
    (cloneParamsMit paramsMitEx 2).wfb = true
      ∧ (cloneParamsHeimdal paramsHeimdalEx 2).wfb = true :=
  ⟨(params_clone_independent 2 paramsMitEx paramsHeimdalEx (by decide)
      (by decide) (by decide) (by decide)).1.1,
    (params_clone_independent 2 paramsMitEx paramsHeimdalEx (by decide)
      (by decide) (by decide) (by decide)).2.1⟩

/-! ## TL-data (`src/kadmin/src/tl_data.rs`)

The native singly-linked list is modelled as the list of its nodes (the links
through the contiguous backing vector are the list structure itself; a null
head pointer is the empty list).  A node's `tl_data_contents` pointer into the
backing byte buffer is modelled as that buffer's bytes. -/

/-- `TlDataEntry`: a portable tagged byte-blob entry (`data_type` is an
`i16`). -/
structure TlDataEntry where
  data_type : Int
  contents : List Nat
deriving DecidableEq, Repr

/-- `TlData`: the portable ordered sequence of entries. -/
structure TlData where
  entries : List TlDataEntry
deriving DecidableEq, Repr

/-- A native `sys::mit::_krb5_tl_data` node: `tl_data_type : krb5_int16`,
`tl_data_length : krb5_ui_2` (u16), and the pointed-to contents bytes. -/
structure TlDataRawNodeMit where
  tl_data_type : Int
  tl_data_length : Int
  tl_data_contents : List Nat
deriving DecidableEq, Repr

/-- A native `sys::heimdal::_krb5_tl_data` node: `tl_data_length` is a signed
`i16` for Heimdal (`entry_contents.len() as i16` in the source). -/
structure TlDataRawNodeHeimdal where
  tl_data_type : Int
  tl_data_length : Int
  tl_data_contents : List Nat
deriving DecidableEq, Repr

namespace TlDataRaw

/-- `TlDataRaw::build`, MIT arm (`tl_data.rs` lines 102-123): one node per
entry, `tl_data_length = entry.contents.len() as u16`, contents pointer into
the cloned backing buffer; consecutive nodes linked (the list order); an empty
entry sequence produces a null head pointer (the empty list). -/
def build_mit (t : TlData) : List TlDataRawNodeMit :=
  t.entries.map fun e =>
    { tl_data_type := e.data_type,
      tl_data_length := toU16 e.contents.length,
      tl_data_contents := e.contents }

/-- `TlDataRaw::build`, Heimdal arm (`tl_data.rs` lines 124-145):
`tl_data_length = entry.contents.len() as i16`. -/
def build_heimdal (t : TlData) : List TlDataRawNodeHeimdal :=
  t.entries.map fun e =>
    { tl_data_type := e.data_type,
      tl_data_length := toI16 e.contents.length,
      tl_data_contents := e.contents }

end TlDataRaw

/-- `TlData::from_raw`, MIT arm (`tl_data.rs` lines 37-53): walk the list,
reading `tl_data_length` (a `u16`, widened with `.into()`) bytes from each
node's contents pointer. -/
def TlData.from_raw_mit (nodes : List TlDataRawNodeMit) : TlData :=
  ⟨nodes.map fun n =>
    { data_type := n.tl_data_type,
      contents := n.tl_data_contents.take n.tl_data_length.toNat }⟩

/-- `TlData::from_raw`, Heimdal arm (`tl_data.rs` lines 54-73): the length is
read `as usize`, so a negative `i16` wraps to a huge count; the resulting
`slice::from_raw_parts` then reads far past the backing buffer (undefined
behaviour), modelled here as the read being cut off at the buffer. -/
def TlData.from_raw_heimdal (nodes : List TlDataRawNodeHeimdal) : TlData :=
  ⟨nodes.map fun n =>
    { data_type := n.tl_data_type,
      contents := n.tl_data_contents.take (toUsize n.tl_data_length).toNat }⟩

/-- C6 counterexample: a single entry of 2^16 zero bytes does not round-trip
through the MIT native form — `len() as u16` truncates 65536 to 0, so the
read-back entry is empty. -/
theorem tl_data_roundtrip_counterexample :
    TlData.from_raw_mit
        (TlDataRaw.build_mit ⟨[⟨1, List.replicate 65536 0⟩]⟩)
      ≠ ⟨[⟨1, List.replicate 65536 0⟩]⟩ := by
  have hlenrep : (List.replicate 65536 (0 : Nat)).length = 65536 :=
    List.length_replicate 65536 0
  have h0 : (toU16 ((List.replicate 65536 (0 : Nat)).length : Int)).toNat
      = 0 := by
    rw [hlenrep]
    unfold toU16
    decide
  intro h
  have h2 := congrArg (fun td => td.entries.map fun e => e.contents.length) h
  simp only [TlData.from_raw_mit, TlDataRaw.build_mit, List.map_map,
    List.map_cons, List.map_nil, Function.comp] at h2
  rw [h0] at h2
  simp only [List.take_zero, List.length_nil, hlenrep] at h2
  simp at h2

/-- C6 (amended): the round trip portable → native → portable preserves the
sequence (any length, including 0, 1 and greater) provided each entry's
contents fit the native length field: below 2^16 bytes for the MIT `u16`
field, below 2^15 bytes for the Heimdal `i16` field.  (At 2^16 the MIT length
truncates — see the counterexample — and from 2^15 the Heimdal length goes
negative, which on read-back wraps to a huge out-of-range count.) -/
theorem mitEntryRoundtrip (e : TlDataEntry) (he : e.contents.length < 2 ^ 16) :
    TlDataEntry.mk e.data_type
        (e.contents.take (toU16 e.contents.length).toNat) = e := by
  obtain ⟨ty, c⟩ := e
  simp only [TlDataEntry.mk.injEq, true_and]
  have hn : (toU16 (c.length : Int)).toNat = c.length := by
    unfold toU16
    simp only [List.length] at he ⊢
    omega
  rw [hn, List.take_length]

theorem heimdalEntryRoundtrip (e : TlDataEntry)
    (he : e.contents.length < 2 ^ 15) :
    TlDataEntry.mk e.data_type
        (e.contents.take (toUsize (toI16 e.contents.length)).toNat) = e := by
  obtain ⟨ty, c⟩ := e
  simp only [TlDataEntry.mk.injEq, true_and]
  have hn : (toUsize (toI16 (c.length : Int))).toNat = c.length := by
    unfold toUsize toI16
    simp only [List.length] at he ⊢
    omega
  rw [hn, List.take_length]

theorem tl_data_roundtrip (t : TlData) :
    ((∀ e ∈ t.entries, e.contents.length < 2 ^ 16) →
      TlData.from_raw_mit (TlDataRaw.build_mit t) = t)
    ∧ ((∀ e ∈ t.entries, e.contents.length < 2 ^ 15) →
      TlData.from_raw_heimdal (TlDataRaw.build_heimdal t) = t) := by
  obtain ⟨entries⟩ := t
  constructor
  · simp only [TlData.from_raw_mit, TlDataRaw.build_mit, List.map_map,
      TlData.mk.injEq]
    induction entries with
    | nil => intro _; rfl
    | cons e es ih =>
      intro h
      simp only [List.map_cons, List.cons.injEq, Function.comp]
      exact ⟨mitEntryRoundtrip e (h e (by simp)),
        ih (fun x hx => h x (by simp [hx]))⟩
  · simp only [TlData.from_raw_heimdal, TlDataRaw.build_heimdal, List.map_map,
      TlData.mk.injEq]
    induction entries with
    | nil => intro _; rfl
    | cons e es ih =>
      intro h
      simp only [List.map_cons, List.cons.injEq, Function.comp]
      exact ⟨heimdalEntryRoundtrip e (h e (by simp)),
        ih (fun x hx => h x (by simp [hx]))⟩

/-- C6 witness: a two-entry sequence with small contents round-trips through
both native forms. -/
theorem tl_data_roundtrip_witness :
    TlData.from_raw_mit
        (TlDataRaw.build_mit ⟨[⟨1, [10, 20]⟩, ⟨7, []⟩]⟩)
        = ⟨[⟨1, [10, 20]⟩, ⟨7, []⟩]⟩
    ∧ TlData.from_raw_heimdal
        (TlDataRaw.build_heimdal ⟨[⟨1, [10, 20]⟩, ⟨7, []⟩]⟩)
        = ⟨[⟨1, [10, 20]⟩, ⟨7, []⟩]⟩ :=
  ⟨(tl_data_roundtrip ⟨[⟨1, [10, 20]⟩, ⟨7, []⟩]⟩).1 (by decide),
    (tl_data_roundtrip ⟨[⟨1, [10, 20]⟩, ⟨7, []⟩]⟩).2 (by decide)⟩

/-! ## Traces of lock and native-call events

The lifecycle functions (`ContextBuilder::build`, `Drop for Context`, the
`KAdminBuilder::with_*` entry points, `Drop for KAdmin`, `parse_name`) are
embedded as straight-line programs producing a list of events — lock
acquisitions/releases and native calls — with the outcome of every native call
(its return code reduced to the branch it selects, string-conversion success,
lock-poisoning) supplied by oracle parameters. -/

/-- The two process-wide lifecycle locks: `CONTEXT_INIT_LOCK` (`context.rs`
line 23) and `KADMIN_INIT_LOCK` (`kadmin.rs` line 42). -/
inductive LockId where
  | contextLock
  | kadminLock
deriving DecidableEq, Repr

/-- The process-global native handles whose lifecycle the locks guard. -/
inductive Handle where
  | ctx
  | session
deriving DecidableEq, Repr

/-- The native calls appearing in the embedded functions. -/
inductive NativeCall where
  | kadm5_init_krb5_context
  | krb5_init_context
  | krb5_free_context
  | kadm5_init_session
  | kadm5_flush
  | kadm5_destroy
  | krb5_get_default_realm
  | krb5_free_default_realm
  | krb5_get_error_message
  | krb5_free_error_message
  | krb5_sname_to_principal
  | krb5_parse_name
  | krb5_unparse_name
  | krb5_free_unparsed_name
  | krb5_free_principal
  | krb5_cc_resolve
  | krb5_cc_default
  | krb5_cc_get_principal
  | krb5_cc_close
deriving DecidableEq, Repr

/-- The lock guarding a native call that creates or destroys process-global
state (`none` for calls that merely use an already-initialized handle). -/
def NativeCall.lifecycleLock : NativeCall → Option LockId
  | .kadm5_init_krb5_context | .krb5_init_context | .krb5_free_context =>
    some .contextLock
  | .kadm5_init_session | .kadm5_flush | .kadm5_destroy => some .kadminLock
  | _ => none

/-- The process-global handle a lifecycle call initializes. -/
def NativeCall.initializes : NativeCall → Option Handle
  | .kadm5_init_krb5_context | .krb5_init_context => some .ctx
  | .kadm5_init_session => some .session
  | _ => none

/-- The already-initialized process-global handle a non-lifecycle call merely
uses (all such calls in the embedded functions take the krb5 context; none of
them takes the admin server handle). -/
def NativeCall.usesHandle : NativeCall → Option Handle
  | .krb5_get_default_realm | .krb5_free_default_realm
  | .krb5_get_error_message | .krb5_free_error_message
  | .krb5_sname_to_principal | .krb5_parse_name | .krb5_unparse_name
  | .krb5_free_unparsed_name | .krb5_free_principal | .krb5_cc_resolve
  | .krb5_cc_default | .krb5_cc_get_principal | .krb5_cc_close => some .ctx
  | _ => none

/-- One event of an execution trace. -/
inductive Event where
  | acq (l : LockId)
  | rel (l : LockId)
  | call (c : NativeCall)
deriving DecidableEq, Repr

/-- State of the lock-discipline checker: current hold depth of each lock,
and, per handle, whether it was initialized under a lock that has not been
released yet (a "merely uses" call on such a handle would violate the
release-before-use discipline). -/
structure LockState where
  ctxDepth : Nat
  kadDepth : Nat
  blockedCtx : Bool
  blockedSession : Bool
deriving DecidableEq, Repr

/-- One checker step; `none` marks a discipline violation: a lifecycle call
without its lock held, a release of an unheld lock, or a use of a handle whose
initializing lock is still held. -/
def Event.step (s : LockState) : Event → Option LockState
  | .acq .contextLock => some { s with ctxDepth := s.ctxDepth + 1 }
  | .acq .kadminLock => some { s with kadDepth := s.kadDepth + 1 }
  | .rel .contextLock =>
    if s.ctxDepth = 0 then none
    else some { s with ctxDepth := s.ctxDepth - 1, blockedCtx := false }
  | .rel .kadminLock =>
    if s.kadDepth = 0 then none
    else some { s with kadDepth := s.kadDepth - 1, blockedSession := false }
  | .call c =>
    match c.lifecycleLock with
    | some .contextLock =>
      if s.ctxDepth = 0 then none
      else if c.initializes = some .ctx then
        some { s with blockedCtx := true }
      else some s
    | some .kadminLock =>
      if s.kadDepth = 0 then none
      else if c.initializes = some .session then
        some { s with blockedSession := true }
      else some s
    | none =>
      match c.usesHandle with
      | some .ctx => if s.blockedCtx then none else some s
      | some .session => if s.blockedSession then none else some s
      | none => some s

/-- Run the checker over a trace. -/
def checkEvents : List Event → LockState → Option LockState
  | [], s => some s
  | e :: tr, s =>
    match Event.step s e with
    | none => none
    | some s2 => checkEvents tr s2

/-- The initial state: no lock held, nothing blocked. -/
def initLockState : LockState := ⟨0, 0, false, false⟩

/-- A trace obeys the lock discipline: every lifecycle native call happens
with its global lock held for the call's entire (atomic) duration, and the
lock is released before any later call that merely uses the handle the
lifecycle call initialized. -/
def lockDiscipline (tr : List Event) : Prop :=
  (checkEvents tr initLockState).isSome = true

theorem checkEvents_append (A B : List Event) (s : LockState) :
    checkEvents (A ++ B) s =
      match checkEvents A s with
      | none => none
      | some s2 => checkEvents B s2 := by
  induction A generalizing s with
  | nil => rfl
  | cons e A ih =>
    simp only [List.cons_append, checkEvents]
    cases Event.step s e
    · rfl
    · exact ih _

/-- Trace of `Context::error_code_to_message` (`context.rs` lines 91-131):
fetch the native message; free it only if the string conversion succeeded. -/
def error_code_to_message_trace (msgOk : Bool) : List Event :=
  .call .krb5_get_error_message ::
    (if msgOk then [.call .krb5_free_error_message] else [])

/-- Trace of `krb5_error_code_escape_hatch`: nothing on `KRB5_OK`, otherwise
the message fetch. -/
def krb5_escape_trace (code : Int) (msgOk : Bool) : List Event :=
  if code = KRB5_OK then [] else error_code_to_message_trace msgOk

/-- Trace of `kadm5_ret_t_escape_hatch`: nothing on the OK sentinel; Heimdal
delegates to the krb5 trace; MIT consults the static table (no native call)
and falls back to the krb5 trace for unknown codes. -/
def kadm5_escape_trace (lib : Library) (code : Int) (msgOk : Bool) :
    List Event :=
  if code = KADM5_OK then []
  else if lib.is_heimdal then krb5_escape_trace (toI32 code) msgOk
  else
    match mitKadm5Messages.lookup (toU32 code) with
    | some _ => []
    | none => krb5_escape_trace (toI32 code) msgOk

/-- Trace of `Context::fill_default_realm` (`context.rs` lines 44-86): get the
default realm; on success copy and free it, on failure the escape hatch
fetches the error message (the failure itself is swallowed — the field is left
absent). -/
def fill_default_realm_trace (code : Int) (msgOk : Bool) : List Event :=
  .call .krb5_get_default_realm ::
    (if code = KRB5_OK then [.call .krb5_free_default_realm]
     else error_code_to_message_trace msgOk)

/-- The variant's native context-init entry (`context.rs` lines 184-198):
`kadm5_init_krb5_context` for MIT, `krb5_init_context` for Heimdal. -/
def ctxInitCall : KAdm5Variant → NativeCall
  | .mitClient | .mitServer => .kadm5_init_krb5_context
  | .heimdalClient | .heimdalServer => .krb5_init_context

/-- `ContextBuilder::build` (`context.rs` lines 171-209): an adopted context
skips the native init (and the lock) and only fills the default realm;
otherwise the init lock is acquired, the native context init runs, the guard
is dropped, and only then the escape hatch / default-realm population touch
the new context. -/
def ContextBuilder_build (variant : KAdm5Variant) (adopted : Bool)
    (lockOk : Bool) (initCode : Int) (initMsgOk : Bool) (realmCode : Int)
    (realmMsgOk : Bool) : List Event × Except Error Unit :=
  if adopted then (fill_default_realm_trace realmCode realmMsgOk, .ok ())
  else if lockOk = false then ([], .error .lockError)
  else
    ([.acq .contextLock, .call (ctxInitCall variant), .rel .contextLock] ++
      (if initCode = KRB5_OK then fill_default_realm_trace realmCode realmMsgOk
       else error_code_to_message_trace initMsgOk),
      if initCode = KRB5_OK then .ok () else .error (.kerberos initCode ""))

/-- `Drop for Context` (`context.rs` lines 212-227): free the native context
under the init lock; a poisoned lock skips the free. -/
def Context_drop (lockOk : Bool) : List Event :=
  if lockOk then
    [.acq .contextLock, .call .krb5_free_context, .rel .contextLock]
  else []

/-- `Drop for KAdmin` (`kadmin.rs` lines 1232-1252): a null server handle is a
guarded no-op; otherwise flush and destroy run under the kadmin init lock (a
poisoned lock skips them). -/
def KAdmin_drop (handleNull : Bool) (lockOk : Bool) : List Event :=
  if handleNull then []
  else if lockOk then
    [.acq .kadminLock, .call .kadm5_flush, .call .kadm5_destroy,
      .rel .kadminLock]
  else []

/-! ### Checker lemmas for the trace segments -/

theorem check_msg_trace (m : Bool) (s : LockState)
    (h : s.blockedCtx = false) :
    checkEvents (error_code_to_message_trace m) s = some s := by
  cases m <;>
    simp [error_code_to_message_trace, checkEvents, Event.step,
      NativeCall.lifecycleLock, NativeCall.usesHandle, h]

theorem check_krb5_escape (code : Int) (m : Bool) (s : LockState)
    (h : s.blockedCtx = false) :
    checkEvents (krb5_escape_trace code m) s = some s := by
  unfold krb5_escape_trace
  split
  · rfl
  · exact check_msg_trace m s h

theorem check_kadm5_escape (lib : Library) (code : Int) (m : Bool)
    (s : LockState) (h : s.blockedCtx = false) :
    checkEvents (kadm5_escape_trace lib code m) s = some s := by
  unfold kadm5_escape_trace
  split
  · rfl
  · split
    · exact check_krb5_escape _ m s h
    · split
      · rfl
      · exact check_krb5_escape _ m s h

theorem check_fill_realm (code : Int) (m : Bool) (s : LockState)
    (h : s.blockedCtx = false) :
    checkEvents (fill_default_realm_trace code m) s = some s := by
  unfold fill_default_realm_trace
  split
  · simp [checkEvents, Event.step, NativeCall.lifecycleLock,
      NativeCall.usesHandle, h]
  · cases m <;>
      simp [checkEvents, Event.step, NativeCall.lifecycleLock,
        NativeCall.usesHandle, h, error_code_to_message_trace]

theorem check_contextBuild (variant : KAdm5Variant) (adopted lockOk : Bool)
    (initCode : Int) (initMsgOk : Bool) (realmCode : Int) (realmMsgOk : Bool)
    (s : LockState) (h : s.blockedCtx = false) :
    checkEvents
      (ContextBuilder_build variant adopted lockOk initCode initMsgOk
        realmCode realmMsgOk).1 s = some s := by
  obtain ⟨cd, kd, bc, bs⟩ := s
  simp only [LockState.blockedCtx] at h
  subst h
  unfold ContextBuilder_build
  split
  · exact check_fill_realm realmCode realmMsgOk _ rfl
  · split
    · rfl
    · rw [checkEvents_append]
      cases variant <;>
        simp only [ctxInitCall, checkEvents, Event.step,
          NativeCall.lifecycleLock, NativeCall.initializes,
          Nat.add_sub_cancel, if_false, if_true, Nat.succ_ne_zero] <;>
        split <;>
        first
        | exact check_fill_realm realmCode realmMsgOk _ rfl
        | exact check_msg_trace initMsgOk _ rfl

theorem check_Context_drop (lockOk : Bool) :
    lockDiscipline (Context_drop lockOk) := by
  cases lockOk <;> rfl

theorem check_KAdmin_drop (handleNull lockOk : Bool) :
    lockDiscipline (KAdmin_drop handleNull lockOk) := by
  cases handleNull <;> cases lockOk <;> rfl

/-! ### The session-bootstrap entry points (`kadmin.rs` lines 1254-1800) -/

/-- The `Library` arm the embedded traces dispatch through for a variant (the
container identity is irrelevant to control flow). -/
def libOfVariant : KAdm5Variant → Library
  | .mitClient => .mitClient ⟨.file ""⟩
  | .mitServer => .mitServer ⟨.file ""⟩
  | .heimdalClient => .heimdalClient ⟨.file ""⟩
  | .heimdalServer => .heimdalServer ⟨.file ""⟩

/-- A context value for the trace model's escape-hatch results (the message
oracle is irrelevant to traces and error kinds). -/
def traceContext (v : KAdm5Variant) : Context :=
  { library := libOfVariant v, errMsg := fun _ => "" }

/-- `Library.is_client` composed with the variant's library arm. -/
def KAdm5Variant.is_client (v : KAdm5Variant) : Bool :=
  (libOfVariant v).is_client

/-- `Library.is_server` composed with the variant's library arm. -/
def KAdm5Variant.is_server (v : KAdm5Variant) : Bool :=
  (libOfVariant v).is_server

/-- `KAdminBuilder` — the fields the session-bootstrap checks observe: the
configured variant and the variants of an optionally supplied `Library` /
`Context` (only their variants are compared; params, db args and API version
are covered by oracle flags). -/
structure KAdminBuilder where
  variant : KAdm5Variant
  library : Option KAdm5Variant
  context : Option KAdm5Variant
deriving DecidableEq, Repr

/-- Oracle for every native-call outcome and fallible conversion of a
`with_*` session bootstrap: return codes of the native calls, success of each
string conversion, lock poisoning, library-load success. -/
structure InitOracle where
  kadminLockOk : Bool
  loadOk : Bool
  ctxLockOk : Bool
  ctxInitCode : Int
  ctxInitMsgOk : Bool
  realmCode : Int
  realmMsgOk : Bool
  apiVersionOk : Bool
  paramsOk : Bool
  clientNameOk : Bool
  passwordOk : Bool
  keytabOk : Bool
  ccacheNameOk : Bool
  snameCode : Int
  snameMsgOk : Bool
  unparseCode : Int
  unparseMsgOk : Bool
  unparseStrOk : Bool
  princNameOk : Bool
  ccCode : Int
  ccMsgOk : Bool
  ccPrincCode : Int
  ccPrincMsgOk : Bool
  initCode : Int
  initMsgOk : Bool
deriving DecidableEq, Repr

/-- `KAdminBuilder::get_kadmin` (`kadmin.rs` lines 1311-1381): reject
library+context both set, a supplied library whose variant differs from the
builder's, and a supplied context whose variant differs — all before anything
else runs; then (unless a context was supplied) load the library if needed and
build a context; then resolve the API version and build the params guard. -/
def KAdminBuilder.get_kadmin (b : KAdminBuilder) (o : InitOracle) :
    List Event × Except Error Unit :=
  if b.library.isSome && b.context.isSome then
    ([], .error (.libraryMismatch
      "Both library and context cannot be set at the same time"))
  else if b.library.any (fun lv => lv != b.variant) then
    ([], .error (.libraryMismatch
      "Library variant and builder variant don't match"))
  else if b.context.any (fun cv => cv != b.variant) then
    ([], .error (.libraryMismatch
      "Context variant and builder variant don't match"))
  else
    match b.context with
    | some _ =>
      if !o.apiVersionOk then
        ([], .error (.libraryMismatch
          "Version 3 is only available for MIT kadm5"))
      else if !o.paramsOk then ([], .error .stringConversion)
      else ([], .ok ())
    | none =>
      if b.library.isNone && !o.loadOk then ([], .error .libraryLoadError)
      else
        match (ContextBuilder_build b.variant false o.ctxLockOk o.ctxInitCode
            o.ctxInitMsgOk o.realmCode o.realmMsgOk).2 with
        | .error e =>
          ((ContextBuilder_build b.variant false o.ctxLockOk o.ctxInitCode
              o.ctxInitMsgOk o.realmCode o.realmMsgOk).1, .error e)
        | .ok _ =>
          if !o.apiVersionOk then
            ((ContextBuilder_build b.variant false o.ctxLockOk o.ctxInitCode
                o.ctxInitMsgOk o.realmCode o.realmMsgOk).1,
              .error (.libraryMismatch
                "Version 3 is only available for MIT kadm5"))
          else if !o.paramsOk then
            ((ContextBuilder_build b.variant false o.ctxLockOk o.ctxInitCode
                o.ctxInitMsgOk o.realmCode o.realmMsgOk).1,
              .error .stringConversion)
          else
            ((ContextBuilder_build b.variant false o.ctxLockOk o.ctxInitCode
                o.ctxInitMsgOk o.realmCode o.realmMsgOk).1, .ok ())

/-- Trace of `unparse_name_mit`/`unparse_name_heimdal` (`conv.rs` lines
72-136): native unparse, escape hatch on failure, then free the unparsed
buffer only when the string conversion succeeded. -/
def unparse_name_trace (code : Int) (msgOk strOk : Bool) : List Event :=
  .call .krb5_unparse_name ::
    (if code = KRB5_OK then
      (if strOk then [.call .krb5_free_unparsed_name] else [])
     else error_code_to_message_trace msgOk)

/-- Result of `unparse_name_*` (null pointer and UTF-8 conversion failures of
`c_string_to_string` collapsed into one conversion-error arm). -/
def unparse_name_result (v : KAdm5Variant) (code : Int) (strOk : Bool) :
    Except Error Unit :=
  match krb5_error_code_escape_hatch (traceContext v) code with
  | .error e => .error e
  | .ok _ => if strOk then .ok () else .error .cstringConversion

/-- Default client-name resolution of `with_keytab` (`kadmin.rs` lines
1459-1512): `krb5_sname_to_principal`, escape hatch, unparse (whose trace ends
before the unconditional `krb5_free_principal`), then `CString::new` on the
unparsed name. -/
def sname_resolve (v : KAdm5Variant) (o : InitOracle) :
    List Event × Except Error Unit :=
  (.call .krb5_sname_to_principal ::
      (if o.snameCode = KRB5_OK then
        unparse_name_trace o.unparseCode o.unparseMsgOk o.unparseStrOk
          ++ [.call .krb5_free_principal]
       else error_code_to_message_trace o.snameMsgOk),
    match krb5_error_code_escape_hatch (traceContext v) o.snameCode with
    | .error e => .error e
    | .ok _ =>
      match unparse_name_result v o.unparseCode o.unparseStrOk with
      | .error e => .error e
      | .ok _ =>
        if o.princNameOk then .ok () else .error .stringConversion)

/-- Default client-name resolution of `with_ccache` (`kadmin.rs` lines
1607-1629): like `sname_resolve` but starting from
`krb5_cc_get_principal`. -/
def ccprinc_resolve (v : KAdm5Variant) (o : InitOracle) :
    List Event × Except Error Unit :=
  (.call .krb5_cc_get_principal ::
      (if o.ccPrincCode = KRB5_OK then
        unparse_name_trace o.unparseCode o.unparseMsgOk o.unparseStrOk
          ++ [.call .krb5_free_principal]
       else error_code_to_message_trace o.ccPrincMsgOk),
    match krb5_error_code_escape_hatch (traceContext v) o.ccPrincCode with
    | .error e => .error e
    | .ok _ =>
      match unparse_name_result v o.unparseCode o.unparseStrOk with
      | .error e => .error e
      | .ok _ =>
        if o.princNameOk then .ok () else .error .stringConversion)

/-- Result of the final `kadm5_ret_t_escape_hatch` on the session-init
code. -/
def session_init_result (v : KAdm5Variant) (code : Int) : Except Error Unit :=
  match kadm5_ret_t_escape_hatch (traceContext v) code with
  | .error e => .error e
  | .ok _ => .ok ()

/-- `KAdminBuilder::with_password` (`kadmin.rs` lines 1387-1439): acquire the
kadmin init lock, run `get_kadmin`, require a client-side library, convert the
name and password, run the native session init, drop the guard, then the
escape hatch. -/
def KAdminBuilder.with_password (b : KAdminBuilder) (o : InitOracle) :
    List Event × Except Error Unit :=
  if !o.kadminLockOk then ([], .error .lockError)
  else
    match (b.get_kadmin o).2 with
    | .error e =>
      (.acq .kadminLock :: (b.get_kadmin o).1 ++ [.rel .kadminLock], .error e)
    | .ok _ =>
      if !b.variant.is_client then
        (.acq .kadminLock :: (b.get_kadmin o).1 ++ [.rel .kadminLock],
          .error (.libraryMismatch
            "with_password can only be used with client-side libraries"))
      else if !o.clientNameOk then
        (.acq .kadminLock :: (b.get_kadmin o).1 ++ [.rel .kadminLock],
          .error .stringConversion)
      else if !o.passwordOk then
        (.acq .kadminLock :: (b.get_kadmin o).1 ++ [.rel .kadminLock],
          .error .stringConversion)
      else
        (.acq .kadminLock :: (b.get_kadmin o).1
            ++ [.call .kadm5_init_session, .rel .kadminLock]
            ++ kadm5_escape_trace (libOfVariant b.variant) o.initCode
                o.initMsgOk,
          session_init_result b.variant o.initCode)

/-- The client-name step of `with_keytab`: a supplied name is only converted
(no native call), an omitted one is resolved via `krb5_sname_to_principal`. -/
def keytabClientName (v : KAdm5Variant) (o : InitOracle)
    (clientNameProvided : Bool) : List Event × Except Error Unit :=
  if clientNameProvided then
    ([], if o.clientNameOk then .ok () else .error .stringConversion)
  else sname_resolve v o

/-- `KAdminBuilder::with_keytab` (`kadmin.rs` lines 1447-1556). -/
def KAdminBuilder.with_keytab (b : KAdminBuilder) (o : InitOracle)
    (clientNameProvided keytabProvided : Bool) :
    List Event × Except Error Unit :=
  if !o.kadminLockOk then ([], .error .lockError)
  else
    match (b.get_kadmin o).2 with
    | .error e =>
      (.acq .kadminLock :: (b.get_kadmin o).1 ++ [.rel .kadminLock], .error e)
    | .ok _ =>
      if !b.variant.is_client then
        (.acq .kadminLock :: (b.get_kadmin o).1 ++ [.rel .kadminLock],
          .error (.libraryMismatch
            "with_keytab can only be used with client-side libraries"))
      else
        match (keytabClientName b.variant o clientNameProvided).2 with
        | .error e =>
          (.acq .kadminLock :: (b.get_kadmin o).1
              ++ (keytabClientName b.variant o clientNameProvided).1
              ++ [.rel .kadminLock], .error e)
        | .ok _ =>
          if keytabProvided && !o.keytabOk then
            (.acq .kadminLock :: (b.get_kadmin o).1
                ++ (keytabClientName b.variant o clientNameProvided).1
                ++ [.rel .kadminLock], .error .stringConversion)
          else
            (.acq .kadminLock :: (b.get_kadmin o).1
                ++ (keytabClientName b.variant o clientNameProvided).1
                ++ [.call .kadm5_init_session, .rel .kadminLock]
                ++ kadm5_escape_trace (libOfVariant b.variant) o.initCode
                    o.initMsgOk,
              session_init_result b.variant o.initCode)

/-- The ccache-open step of `with_ccache`: `krb5_cc_resolve` for a supplied
name, `krb5_cc_default` otherwise, then the escape hatch on its code. -/
def ccacheOpen_trace (ccacheProvided : Bool) (code : Int) (msgOk : Bool) :
    List Event :=
  .call (if ccacheProvided then .krb5_cc_resolve else .krb5_cc_default)
    :: krb5_escape_trace code msgOk

/-- The client-name step of `with_ccache`: a supplied name is only converted,
an omitted one is resolved via `krb5_cc_get_principal`. -/
def ccacheClientName (v : KAdm5Variant) (o : InitOracle)
    (clientNameProvided : Bool) : List Event × Except Error Unit :=
  if clientNameProvided then
    ([], if o.clientNameOk then .ok () else .error .stringConversion)
  else ccprinc_resolve v o

/-- `KAdminBuilder::with_ccache` (`kadmin.rs` lines 1565-1730): resolve the
credentials cache, resolve the client name out of it if none was supplied,
run the native session init, close the ccache (still under the lock — the
ccache close uses the context, not the new server handle), drop the guard,
then the escape hatch. -/
def KAdminBuilder.with_ccache (b : KAdminBuilder) (o : InitOracle)
    (clientNameProvided ccacheProvided : Bool) :
    List Event × Except Error Unit :=
  if !o.kadminLockOk then ([], .error .lockError)
  else
    match (b.get_kadmin o).2 with
    | .error e =>
      (.acq .kadminLock :: (b.get_kadmin o).1 ++ [.rel .kadminLock], .error e)
    | .ok _ =>
      if !b.variant.is_client then
        (.acq .kadminLock :: (b.get_kadmin o).1 ++ [.rel .kadminLock],
          .error (.libraryMismatch
            "with_ccache can only be used with client-side libraries"))
      else if ccacheProvided && !o.ccacheNameOk then
        (.acq .kadminLock :: (b.get_kadmin o).1 ++ [.rel .kadminLock],
          .error .stringConversion)
      else
        match krb5_error_code_escape_hatch (traceContext b.variant)
            o.ccCode with
        | .error e =>
          (.acq .kadminLock :: (b.get_kadmin o).1
              ++ ccacheOpen_trace ccacheProvided o.ccCode o.ccMsgOk
              ++ [.rel .kadminLock], .error e)
        | .ok _ =>
          match (ccacheClientName b.variant o clientNameProvided).2 with
          | .error e =>
            (.acq .kadminLock :: (b.get_kadmin o).1
                ++ ccacheOpen_trace ccacheProvided o.ccCode o.ccMsgOk
                ++ (ccacheClientName b.variant o clientNameProvided).1
                ++ [.rel .kadminLock], .error e)
          | .ok _ =>
            (.acq .kadminLock :: (b.get_kadmin o).1
                ++ ccacheOpen_trace ccacheProvided o.ccCode o.ccMsgOk
                ++ (ccacheClientName b.variant o clientNameProvided).1
                ++ [.call .kadm5_init_session, .call .krb5_cc_close,
                    .rel .kadminLock]
                ++ kadm5_escape_trace (libOfVariant b.variant) o.initCode
                    o.initMsgOk,
              session_init_result b.variant o.initCode)

/-- `KAdminBuilder::with_local` (`kadmin.rs` lines 1743-1800): require a
server-side library; the default admin client name is derived purely from the
cached default realm (no native call); then the native local init under the
lock, guard dropped, escape hatch. -/
def KAdminBuilder.with_local (b : KAdminBuilder) (o : InitOracle) :
    List Event × Except Error Unit :=
  if !o.kadminLockOk then ([], .error .lockError)
  else
    match (b.get_kadmin o).2 with
    | .error e =>
      (.acq .kadminLock :: (b.get_kadmin o).1 ++ [.rel .kadminLock], .error e)
    | .ok _ =>
      if !b.variant.is_server then
        (.acq .kadminLock :: (b.get_kadmin o).1 ++ [.rel .kadminLock],
          .error (.libraryMismatch
            "with_local can only be used with server-side libraries"))
      else
        (.acq .kadminLock :: (b.get_kadmin o).1
            ++ [.call .kadm5_init_session, .rel .kadminLock]
            ++ kadm5_escape_trace (libOfVariant b.variant) o.initCode
                o.initMsgOk,
          session_init_result b.variant o.initCode)

/-! ### Checker lemmas for the bootstrap traces -/

theorem check_get_kadmin (b : KAdminBuilder) (o : InitOracle) (s : LockState)
    (h : s.blockedCtx = false) :
    checkEvents (b.get_kadmin o).1 s = some s := by
  unfold KAdminBuilder.get_kadmin
  split
  · rfl
  · split
    · rfl
    · split
      · rfl
      · split
        · split
          · rfl
          · split
            · rfl
            · rfl
        · split
          · rfl
          · split
            · exact check_contextBuild _ _ _ _ _ _ _ s h
            · split
              · exact check_contextBuild _ _ _ _ _ _ _ s h
              · split
                · exact check_contextBuild _ _ _ _ _ _ _ s h
                · exact check_contextBuild _ _ _ _ _ _ _ s h

theorem check_unparse_trace (code : Int) (m strOk : Bool) (s : LockState)
    (h : s.blockedCtx = false) :
    checkEvents (unparse_name_trace code m strOk) s = some s := by
  unfold unparse_name_trace
  split
  · split <;>
      simp [checkEvents, Event.step, NativeCall.lifecycleLock,
        NativeCall.usesHandle, h]
  · cases m <;>
      simp [checkEvents, Event.step, NativeCall.lifecycleLock,
        NativeCall.usesHandle, h, error_code_to_message_trace]

theorem check_sname_resolve (v : KAdm5Variant) (o : InitOracle)
    (s : LockState) (h : s.blockedCtx = false) :
    checkEvents (sname_resolve v o).1 s = some s := by
  obtain ⟨cd, kd, bc, bs⟩ := s
  simp only [LockState.blockedCtx] at h
  subst h
  unfold sname_resolve
  dsimp only
  split
  · show checkEvents
        (unparse_name_trace o.unparseCode o.unparseMsgOk o.unparseStrOk
          ++ [.call .krb5_free_principal]) ⟨cd, kd, false, bs⟩
        = some ⟨cd, kd, false, bs⟩
    rw [checkEvents_append, check_unparse_trace _ _ _ _ rfl]
    rfl
  · show checkEvents (error_code_to_message_trace o.snameMsgOk)
        ⟨cd, kd, false, bs⟩ = some ⟨cd, kd, false, bs⟩
    exact check_msg_trace _ _ rfl

theorem check_ccprinc_resolve (v : KAdm5Variant) (o : InitOracle)
    (s : LockState) (h : s.blockedCtx = false) :
    checkEvents (ccprinc_resolve v o).1 s = some s := by
  obtain ⟨cd, kd, bc, bs⟩ := s
  simp only [LockState.blockedCtx] at h
  subst h
  unfold ccprinc_resolve
  dsimp only
  split
  · show checkEvents
        (unparse_name_trace o.unparseCode o.unparseMsgOk o.unparseStrOk
          ++ [.call .krb5_free_principal]) ⟨cd, kd, false, bs⟩
        = some ⟨cd, kd, false, bs⟩
    rw [checkEvents_append, check_unparse_trace _ _ _ _ rfl]
    rfl
  · show checkEvents (error_code_to_message_trace o.ccPrincMsgOk)
        ⟨cd, kd, false, bs⟩ = some ⟨cd, kd, false, bs⟩
    exact check_msg_trace _ _ rfl

theorem check_keytabClientName (v : KAdm5Variant) (o : InitOracle)
    (cnp : Bool) (s : LockState) (h : s.blockedCtx = false) :
    checkEvents (keytabClientName v o cnp).1 s = some s := by
  unfold keytabClientName
  cases cnp
  · exact check_sname_resolve v o s h
  · rfl

theorem check_ccacheClientName (v : KAdm5Variant) (o : InitOracle)
    (cnp : Bool) (s : LockState) (h : s.blockedCtx = false) :
    checkEvents (ccacheClientName v o cnp).1 s = some s := by
  unfold ccacheClientName
  cases cnp
  · exact check_ccprinc_resolve v o s h
  · rfl

theorem check_ccacheOpen (ccp : Bool) (code : Int) (m : Bool)
    (s : LockState) (h : s.blockedCtx = false) :
    checkEvents (ccacheOpen_trace ccp code m) s = some s := by
  obtain ⟨cd, kd, bc, bs⟩ := s
  simp only [LockState.blockedCtx] at h
  subst h
  unfold ccacheOpen_trace
  cases ccp
  · show checkEvents (krb5_escape_trace code m) ⟨cd, kd, false, bs⟩
        = some ⟨cd, kd, false, bs⟩
    exact check_krb5_escape _ _ _ rfl
  · show checkEvents (krb5_escape_trace code m) ⟨cd, kd, false, bs⟩
        = some ⟨cd, kd, false, bs⟩
    exact check_krb5_escape _ _ _ rfl

theorem check_with_password (b : KAdminBuilder) (o : InitOracle) :
    lockDiscipline (b.with_password o).1 := by
  have hg := check_get_kadmin b o ⟨0, 1, false, false⟩ rfl
  unfold lockDiscipline KAdminBuilder.with_password
  split
  · rfl
  · split
    · dsimp only
      show (checkEvents ((b.get_kadmin o).1 ++ [.rel .kadminLock])
          ⟨0, 1, false, false⟩).isSome = true
      rw [checkEvents_append, hg]
      rfl
    · split
      · dsimp only
        show (checkEvents ((b.get_kadmin o).1 ++ [.rel .kadminLock])
            ⟨0, 1, false, false⟩).isSome = true
        rw [checkEvents_append, hg]
        rfl
      · split
        · dsimp only
          show (checkEvents ((b.get_kadmin o).1 ++ [.rel .kadminLock])
              ⟨0, 1, false, false⟩).isSome = true
          rw [checkEvents_append, hg]
          rfl
        · split
          · dsimp only
            show (checkEvents ((b.get_kadmin o).1 ++ [.rel .kadminLock])
                ⟨0, 1, false, false⟩).isSome = true
            rw [checkEvents_append, hg]
            rfl
          · dsimp only
            show (checkEvents (((b.get_kadmin o).1
                ++ [.call .kadm5_init_session, .rel .kadminLock])
                ++ kadm5_escape_trace (libOfVariant b.variant) o.initCode
                    o.initMsgOk) ⟨0, 1, false, false⟩).isSome = true
            have h2 : checkEvents ((b.get_kadmin o).1
                ++ [.call .kadm5_init_session, .rel .kadminLock])
                ⟨0, 1, false, false⟩ = some ⟨0, 0, false, false⟩ := by
              rw [checkEvents_append, hg]
              rfl
            rw [checkEvents_append, h2]
            show (checkEvents (kadm5_escape_trace (libOfVariant b.variant)
                o.initCode o.initMsgOk) ⟨0, 0, false, false⟩).isSome = true
            rw [check_kadm5_escape _ _ _ _ rfl]
            rfl

theorem check_after_acq (T : List Event)
    (h : (checkEvents T ⟨0, 1, false, false⟩).isSome = true) :
    (checkEvents (.acq .kadminLock :: T) initLockState).isSome = true := h

theorem checkEvents_comp (A B : List Event) (s : LockState)
    (hA : checkEvents A s = some s) (hB : checkEvents B s = some s) :
    checkEvents (A ++ B) s = some s := by
  rw [checkEvents_append, hA]
  exact hB

theorem check_seg_rel (A : List Event)
    (hA : checkEvents A ⟨0, 1, false, false⟩ = some ⟨0, 1, false, false⟩) :
    (checkEvents (A ++ [.rel .kadminLock])
      ⟨0, 1, false, false⟩).isSome = true := by
  rw [checkEvents_append, hA]
  rfl

theorem check_seg_init_rel_escape (A : List Event) (lib : Library)
    (code : Int) (m : Bool)
    (hA : checkEvents A ⟨0, 1, false, false⟩ = some ⟨0, 1, false, false⟩) :
    (checkEvents ((A ++ [.call .kadm5_init_session, .rel .kadminLock])
        ++ kadm5_escape_trace lib code m)
      ⟨0, 1, false, false⟩).isSome = true := by
  have h2 : checkEvents (A ++ [.call .kadm5_init_session, .rel .kadminLock])
      ⟨0, 1, false, false⟩ = some ⟨0, 0, false, false⟩ := by
    rw [checkEvents_append, hA]
    rfl
  rw [checkEvents_append, h2]
  show (checkEvents (kadm5_escape_trace lib code m)
      ⟨0, 0, false, false⟩).isSome = true
  rw [check_kadm5_escape _ _ _ _ rfl]
  rfl

theorem check_seg_init_close_rel_escape (A : List Event) (lib : Library)
    (code : Int) (m : Bool)
    (hA : checkEvents A ⟨0, 1, false, false⟩ = some ⟨0, 1, false, false⟩) :
    (checkEvents ((A ++ [.call .kadm5_init_session, .call .krb5_cc_close,
          .rel .kadminLock]) ++ kadm5_escape_trace lib code m)
      ⟨0, 1, false, false⟩).isSome = true := by
  have h2 : checkEvents (A ++ [.call .kadm5_init_session,
      .call .krb5_cc_close, .rel .kadminLock])
      ⟨0, 1, false, false⟩ = some ⟨0, 0, false, false⟩ := by
    rw [checkEvents_append, hA]
    rfl
  rw [checkEvents_append, h2]
  show (checkEvents (kadm5_escape_trace lib code m)
      ⟨0, 0, false, false⟩).isSome = true
  rw [check_kadm5_escape _ _ _ _ rfl]
  rfl

theorem check_with_keytab (b : KAdminBuilder) (o : InitOracle)
    (cnp ktp : Bool) : lockDiscipline (b.with_keytab o cnp ktp).1 := by
  have hg := check_get_kadmin b o ⟨0, 1, false, false⟩ rfl
  have hcn := check_keytabClientName b.variant o cnp ⟨0, 1, false, false⟩ rfl
  unfold lockDiscipline KAdminBuilder.with_keytab
  split
  · rfl
  · split
    · exact check_after_acq _ (check_seg_rel _ hg)
    · split
      · exact check_after_acq _ (check_seg_rel _ hg)
      · split
        · exact check_after_acq _
            (check_seg_rel _ (checkEvents_comp _ _ _ hg hcn))
        · split
          · exact check_after_acq _
              (check_seg_rel _ (checkEvents_comp _ _ _ hg hcn))
          · exact check_after_acq _
              (check_seg_init_rel_escape _ _ _ _
                (checkEvents_comp _ _ _ hg hcn))

theorem check_with_ccache (b : KAdminBuilder) (o : InitOracle)
    (cnp ccp : Bool) : lockDiscipline (b.with_ccache o cnp ccp).1 := by
  have hg := check_get_kadmin b o ⟨0, 1, false, false⟩ rfl
  have hco := check_ccacheOpen ccp o.ccCode o.ccMsgOk ⟨0, 1, false, false⟩ rfl
  have hcn := check_ccacheClientName b.variant o cnp ⟨0, 1, false, false⟩ rfl
  unfold lockDiscipline KAdminBuilder.with_ccache
  split
  · rfl
  · split
    · exact check_after_acq _ (check_seg_rel _ hg)
    · split
      · exact check_after_acq _ (check_seg_rel _ hg)
      · split
        · exact check_after_acq _ (check_seg_rel _ hg)
        · split
          · exact check_after_acq _
              (check_seg_rel _ (checkEvents_comp _ _ _ hg hco))
          · split
            · exact check_after_acq _
                (check_seg_rel _ (checkEvents_comp _ _ _
                  (checkEvents_comp _ _ _ hg hco) hcn))
            · exact check_after_acq _
                (check_seg_init_close_rel_escape _ _ _ _
                  (checkEvents_comp _ _ _
                    (checkEvents_comp _ _ _ hg hco) hcn))

theorem check_with_local (b : KAdminBuilder) (o : InitOracle) :
    lockDiscipline (b.with_local o).1 := by
  have hg := check_get_kadmin b o ⟨0, 1, false, false⟩ rfl
  unfold lockDiscipline KAdminBuilder.with_local
  split
  · rfl
  · split
    · exact check_after_acq _ (check_seg_rel _ hg)
    · split
      · exact check_after_acq _ (check_seg_rel _ hg)
      · exact check_after_acq _ (check_seg_init_rel_escape _ _ _ _ hg)

/-- C3: every embedded lifecycle trace — `ContextBuilder::build` (default and
adopted), `Drop for Context`, the four `with_*` session entry points, and
`Drop for KAdmin` — obeys the lock discipline: a native call that creates or
destroys process-global state (context init/free, session init/flush/destroy)
only ever runs with its global initialization lock held for the call's whole
duration, and that lock is released before any subsequent native call that
merely uses the handle the lifecycle call initialized. -/
theorem lifecycle_lock_discipline (variant : KAdm5Variant)
    (adopted lockOk : Bool) (initCode : Int) (initMsgOk : Bool)
    (realmCode : Int) (realmMsgOk : Bool) (b : KAdminBuilder)
    (o : InitOracle) (cnp ktp cnp2 ccp handleNull dropLockOk
      ctxDropLockOk : Bool) :
    lockDiscipline (ContextBuilder_build variant adopted lockOk initCode
        initMsgOk realmCode realmMsgOk).1
    ∧ lockDiscipline (Context_drop ctxDropLockOk)
    ∧ lockDiscipline (b.with_password o).1
    ∧ lockDiscipline (b.with_keytab o cnp ktp).1
    ∧ lockDiscipline (b.with_ccache o cnp2 ccp).1
    ∧ lockDiscipline (b.with_local o).1
    ∧ lockDiscipline (KAdmin_drop handleNull dropLockOk) :=
  ⟨by
      unfold lockDiscipline
      rw [check_contextBuild _ _ _ _ _ _ _ _ rfl]
      rfl,
    check_Context_drop _, check_with_password b o,
    check_with_keytab b o cnp ktp, check_with_ccache b o cnp2 ccp,
    check_with_local b o, check_KAdmin_drop _ _⟩

/-- C4: dropping a `KAdmin` whose native server handle is null is a guarded
no-op — no lock acquisition, no native flush/destroy, and no panic (the drop
embedding is a total function); only with a non-null handle does drop acquire
the session lock and run the native flush followed by destroy (and a poisoned
lock skips both). -/
theorem kadmin_drop_null_guard (handleNull lockOk : Bool) :
    (handleNull = true → KAdmin_drop handleNull lockOk = [])
    ∧ (handleNull = false → lockOk = true →
        KAdmin_drop handleNull lockOk =
          [.acq .kadminLock, .call .kadm5_flush, .call .kadm5_destroy,
            .rel .kadminLock])
    ∧ (handleNull = false → lockOk = false →
        KAdmin_drop handleNull lockOk = []) := by
  cases handleNull <;> cases lockOk <;> exact ⟨by simp [KAdmin_drop],
    by simp [KAdmin_drop], by simp [KAdmin_drop]⟩

/-- C4 witness: the null-handle drop is empty; the non-null drop is
lock–flush–destroy–unlock. -/
theorem kadmin_drop_null_guard_witness :
    KAdmin_drop true true = []
    ∧ KAdmin_drop false true =
        [.acq .kadminLock, .call .kadm5_flush, .call .kadm5_destroy,
          .rel .kadminLock] :=
  ⟨(kadmin_drop_null_guard true true).1 rfl,
    (kadmin_drop_null_guard false true).2.1 rfl rfl⟩

/-- A trace containing no native call at all. -/
def noNativeCalls (tr : List Event) : Bool :=
  tr.all fun e =>
    match e with
    | .call _ => false
    | _ => true

theorem get_kadmin_mismatch (b : KAdminBuilder) (o : InitOracle)
    (hmm : (∃ lv, b.library = some lv ∧ lv ≠ b.variant)
      ∨ (∃ cv, b.context = some cv ∧ cv ≠ b.variant)) :
    ∃ m, b.get_kadmin o = ([], .error (.libraryMismatch m)) := by
  unfold KAdminBuilder.get_kadmin
  rcases hmm with ⟨lv, hl, hne⟩ | ⟨cv, hc, hne⟩
  · cases hctx : b.context
    · simp [hl, hctx, hne]
    · simp [hl, hctx]
  · cases hlib : b.library
    · simp [hlib, hc, hne]
    · simp [hlib, hc]

/-- C1: whenever the variant of a supplied `Context` or `Library` differs
from the variant the builder was configured with, each of the four
construction entry points fails with a library-mismatch error, and its trace
contains no native call at all. -/
theorem builder_variant_mismatch_rejected (b : KAdminBuilder) (o : InitOracle)
    (cnp ktp cnp2 ccp : Bool) (hlock : o.kadminLockOk = true)
    (hmm : (∃ lv, b.library = some lv ∧ lv ≠ b.variant)
      ∨ (∃ cv, b.context = some cv ∧ cv ≠ b.variant)) :
    ((∃ m, (b.with_password o).2 = .error (.libraryMismatch m))
      ∧ noNativeCalls (b.with_password o).1 = true)
    ∧ ((∃ m, (b.with_keytab o cnp ktp).2 = .error (.libraryMismatch m))
      ∧ noNativeCalls (b.with_keytab o cnp ktp).1 = true)
    ∧ ((∃ m, (b.with_ccache o cnp2 ccp).2 = .error (.libraryMismatch m))
      ∧ noNativeCalls (b.with_ccache o cnp2 ccp).1 = true)
    ∧ ((∃ m, (b.with_local o).2 = .error (.libraryMismatch m))
      ∧ noNativeCalls (b.with_local o).1 = true) := by
  obtain ⟨m, hg⟩ := get_kadmin_mismatch b o hmm
  have h1 : (b.get_kadmin o).1 = [] := by rw [hg]
  have h2 : (b.get_kadmin o).2 = .error (.libraryMismatch m) := by rw [hg]
  refine ⟨⟨⟨m, ?_⟩, ?_⟩, ⟨⟨m, ?_⟩, ?_⟩, ⟨⟨m, ?_⟩, ?_⟩, ⟨⟨m, ?_⟩, ?_⟩⟩ <;>
    simp [KAdminBuilder.with_password, KAdminBuilder.with_keytab,
      KAdminBuilder.with_ccache, KAdminBuilder.with_local, hlock, h1, h2,
      noNativeCalls]

/-- Example oracle: every native call succeeds and every conversion is fine.
-/
def oracleEx : InitOracle :=
  { kadminLockOk := true, loadOk := true, ctxLockOk := true, ctxInitCode := 0,
    ctxInitMsgOk := true, realmCode := 0, realmMsgOk := true,
    apiVersionOk := true, paramsOk := true, clientNameOk := true,
    passwordOk := true, keytabOk := true, ccacheNameOk := true,
    snameCode := 0, snameMsgOk := true, unparseCode := 0,
    unparseMsgOk := true, unparseStrOk := true, princNameOk := true,
    ccCode := 0, ccMsgOk := true, ccPrincCode := 0, ccPrincMsgOk := true,
    initCode := 0, initMsgOk := true }

/-- C1 witness: a builder configured for the MIT client variant but supplied
a Heimdal-client library (and, in the second configuration, a Heimdal-client
context) is rejected by all four entry points without any native call. -/
theorem builder_variant_mismatch_rejected_witness :
    (∃ m, (KAdminBuilder.with_password
        ⟨.mitClient, some .heimdalClient, none⟩ oracleEx).2
      = .error (.libraryMismatch m))
    ∧ noNativeCalls (KAdminBuilder.with_local
        ⟨.mitClient, none, some .heimdalClient⟩ oracleEx).1 = true :=
  ⟨(builder_variant_mismatch_rejected ⟨.mitClient, some .heimdalClient, none⟩
      oracleEx true true true true rfl
      (Or.inl ⟨.heimdalClient, rfl, by decide⟩)).1.1,
    (builder_variant_mismatch_rejected ⟨.mitClient, none, some .heimdalClient⟩
      oracleEx true true true true rfl
      (Or.inr ⟨.heimdalClient, rfl, by decide⟩)).2.2.2.2⟩

/-! ## `parse_name` and the `ParsedName` guard (`src/kadmin/src/conv.rs`
lines 138-217)

Native pointers are abstract addresses: the parsed principal allocated by
`krb5_parse_name` and the canonical string buffer allocated by
`krb5_unparse_name` are handed in as distinct addresses.  On parse failure the
native routine leaves the zero-initialized output pointer null. -/

/-- `Drop for ParsedName` (`conv.rs` lines 195-217): a null pointer is a
no-op; otherwise the principal is freed through the context's own variant arm
of the dispatch. -/
def ParsedName_drop (raw : Option Nat) : List Event :=
  match raw with
  | none => []
  | some _ => [.call .krb5_free_principal]

/-- `parse_name` (`conv.rs` lines 138-188): convert the name, parse it
natively, construct the guard, run the escape hatch on the parse code
(dropping the still-null guard on failure), then immediately unparse the
parsed principal to validate its canonical form, propagating unparse errors
(which drops — and so frees — the guard).  The canonical buffer produced by
the unparse is never freed, and its address is not kept; the guard returned on
success holds the parsed pointer only. -/
def parse_name (v : KAdm5Variant) (name : String) (pPtr cPtr : Nat)
    (parseCode unparseCode : Int) (parseMsgOk unparseMsgOk : Bool) :
    List Event × Except Error (Option Nat) :=
  if containsNul name then ([], .error .stringConversion)
  else
    (.call .krb5_parse_name ::
        (if parseCode = KRB5_OK then
          .call .krb5_unparse_name ::
            (if unparseCode = KRB5_OK then []
             else error_code_to_message_trace unparseMsgOk
               ++ ParsedName_drop (some pPtr))
         else error_code_to_message_trace parseMsgOk ++ ParsedName_drop none),
      match krb5_error_code_escape_hatch (traceContext v) parseCode with
      | .error e => .error e
      | .ok _ =>
        match krb5_error_code_escape_hatch (traceContext v) unparseCode with
        | .error e => .error e
        | .ok _ => .ok (some pPtr))

/-- C7 counterexample: on a fully successful parse of a well-formed name, the
trace contains the native unparse but no `krb5_free_unparsed_name` — the
"unparse-then-free sequence" of the claim does not happen; the canonical
buffer is never freed. -/
theorem parse_name_no_free_counterexample :
    Event.call .krb5_unparse_name
        ∈ (parse_name .mitClient "user@EXAMPLE.ORG" 1 2 0 0 true true).1
      ∧ Event.call .krb5_free_unparsed_name
          ∉ (parse_name .mitClient "user@EXAMPLE.ORG" 1 2 0 0 true true).1 := by
  decide

/-- C7 (amended): `parse_name` allocates via the native parse routine and
immediately round-trips the result through the native unparse call to
validate its canonical form — without freeing the canonical buffer — so
malformed-name errors surface at parse time; it returns a guard holding only
the parsed (never the canonicalized) pointer, and the guard's drop frees that
pointer through the variant dispatch (a no-op for the null guard left by a
failed parse). -/
theorem parse_name_spec (v : KAdm5Variant) (name : String) (pPtr cPtr : Nat)
    (parseCode unparseCode : Int) (parseMsgOk unparseMsgOk : Bool)
    (hname : containsNul name = false) (hptr : pPtr ≠ cPtr) :
    ((parse_name v name pPtr cPtr parseCode unparseCode parseMsgOk
        unparseMsgOk).1.head? = some (.call .krb5_parse_name))
    ∧ (parseCode = KRB5_OK →
        Event.call .krb5_unparse_name
          ∈ (parse_name v name pPtr cPtr parseCode unparseCode parseMsgOk
              unparseMsgOk).1)
    ∧ (Event.call .krb5_free_unparsed_name
        ∉ (parse_name v name pPtr cPtr parseCode unparseCode parseMsgOk
            unparseMsgOk).1)
    ∧ (parseCode = KRB5_OK → unparseCode ≠ KRB5_OK →
        (∃ e, (parse_name v name pPtr cPtr parseCode unparseCode parseMsgOk
            unparseMsgOk).2 = .error e)
        ∧ Event.call .krb5_free_principal
            ∈ (parse_name v name pPtr cPtr parseCode unparseCode parseMsgOk
                unparseMsgOk).1)
    ∧ (parseCode = KRB5_OK → unparseCode = KRB5_OK →
        (parse_name v name pPtr cPtr parseCode unparseCode parseMsgOk
            unparseMsgOk).2 = .ok (some pPtr)
        ∧ (parse_name v name pPtr cPtr parseCode unparseCode parseMsgOk
            unparseMsgOk).2 ≠ .ok (some cPtr))
    ∧ ParsedName_drop (some pPtr) = [.call .krb5_free_principal]
    ∧ ParsedName_drop none = [] := by
  unfold parse_name
  rw [hname]
  by_cases hp : parseCode = KRB5_OK
  · by_cases hu : unparseCode = KRB5_OK
    · refine ⟨by simp [hp], fun _ => by simp [hp], ?_, fun _ h => absurd hu h,
        fun _ _ => ?_, rfl, rfl⟩
      · cases parseMsgOk <;> cases unparseMsgOk <;>
          simp [hp, hu, error_code_to_message_trace, ParsedName_drop]
      · constructor
        · simp [krb5_error_code_escape_hatch, hp, hu]
        · simp [krb5_error_code_escape_hatch, hp, hu, hptr]
    · refine ⟨by simp [hp], fun _ => by simp [hp], ?_, fun _ _ => ⟨?_, ?_⟩,
        fun _ h => absurd h hu, rfl, rfl⟩
      · cases parseMsgOk <;> cases unparseMsgOk <;>
          simp [hp, hu, error_code_to_message_trace, ParsedName_drop]
      · refine ⟨Error.kerberos unparseCode
            ((traceContext v).errMsg unparseCode), ?_⟩
        simp [krb5_error_code_escape_hatch, hp, hu]
      · cases unparseMsgOk <;>
          simp [hp, hu, error_code_to_message_trace, ParsedName_drop]
  · refine ⟨by simp [hp], fun h => absurd h hp, ?_, fun h => absurd h hp,
      fun h => absurd h hp, rfl, rfl⟩
    cases parseMsgOk <;>
      simp [hp, error_code_to_message_trace, ParsedName_drop]

/-- C7 witness: a successful parse of a well-formed name returns the guard
holding the parsed pointer (address 1), not the canonical buffer (address 2).
-/
theorem parse_name_spec_witness :
    (parse_name .mitClient "user@EXAMPLE.ORG" 1 2 0 0 true true).2
      = .ok (some 1) :=
  ((parse_name_spec .mitClient "user@EXAMPLE.ORG" 1 2 0 0 true true
      (by decide) (by decide)).2.2.2.2.1 rfl rfl).1

/-! ## Library resolution (`src/kadmin/src/sys.rs` lines 73-171)

`Container::load` either opens the file and resolves every required symbol or
fails; the oracle `loads` records on which paths it succeeds.  The candidate
directories and library names come from build-time environment variables
(`library_paths()` / `libraries()`), modelled as configuration lists. -/

/-- Whether `pre` is a prefix of `s`, on character lists. -/
def listHasPrefix : List Char → List Char → Bool
  | _, [] => true
  | [], _ :: _ => false
  | c :: s, d :: t => c = d && listHasPrefix s t

/-- Whether `sub` occurs inside `s`, on character lists. -/
def listContains : List Char → List Char → Bool
  | [], sub => sub.isEmpty
  | s@(_ :: rest), sub => listHasPrefix s sub || listContains rest sub

/-- Whether `sub` occurs as a substring of `s` (Rust `str::contains`). -/
def strContains (s sub : String) : Bool := listContains s.data sub.data

/-- Build-time loader configuration: the candidate directories and library
names per family (`KADMIN_BUILD_*_LIBRARY_PATHS` / `..._LIBRARIES`). -/
structure LoaderConfig where
  mitPaths : List String
  mitLibs : List String
  heimdalPaths : List String
  heimdalLibs : List String
deriving DecidableEq, Repr

/-- The directories searched for a variant's family. -/
def LoaderConfig.paths (cfg : LoaderConfig) : KAdm5Variant → List String
  | .mitClient | .mitServer => cfg.mitPaths
  | .heimdalClient | .heimdalServer => cfg.heimdalPaths

/-- The candidate library names of a variant's family. -/
def LoaderConfig.libs (cfg : LoaderConfig) : KAdm5Variant → List String
  | .mitClient | .mitServer => cfg.mitLibs
  | .heimdalClient | .heimdalServer => cfg.heimdalLibs

/-- The role marker the candidate filenames are filtered by (`"clnt"` /
`"srv"` in `Library::from_variant`). -/
def roleMarker : KAdm5Variant → String
  | .mitClient | .heimdalClient => "clnt"
  | .mitServer | .heimdalServer => "srv"

/-- The hard-coded conventional fallback filename per variant. -/
def hardcodedLib : KAdm5Variant → String
  | .mitClient => "libkadm5clnt_mit.so"
  | .mitServer => "libkadm5srv_mit.so"
  | .heimdalClient => "libkadm5clnt.so"
  | .heimdalServer => "libkadm5srv.so"

/-- The full candidate paths `Library::find_library` tries, in order: for
each configured directory, each library name containing the role marker,
assembled as `{path}/lib{library}.so`. -/
def libCandidates (library_paths libraries : List String)
    (contains : String) : List String :=
  (library_paths.map fun path =>
    (libraries.filter fun lib => strContains lib contains).map
      fun lib => path ++ "/lib" ++ lib ++ ".so").flatten

/-- `Library::find_library` (`sys.rs` lines 73-88): open the first candidate
on which `Container::load` succeeds. -/
def find_library (library_paths libraries : List String) (contains : String)
    (loads : String → Bool) : Option String :=
  (libCandidates library_paths libraries contains).find? loads

/-- The library arm for a variant with a given container. -/
def mkLib (v : KAdm5Variant) (cont : Container) : Library :=
  match v with
  | .mitClient => .mitClient cont
  | .mitServer => .mitServer cont
  | .heimdalClient => .heimdalClient cont
  | .heimdalServer => .heimdalServer cont

/-- The container a library arm owns. -/
def Library.source : Library → LibSource
  | .mitClient c | .mitServer c | .heimdalClient c | .heimdalServer c =>
    c.source

/-- `Library::from_variant` (`sys.rs` lines 91-134): search the configured
directories for a role-marked filename, and fall back to the hard-coded
conventional filename; a failed fallback load is the final error — the
process's own symbol table is never consulted. -/
def Library.from_variant (cfg : LoaderConfig) (loads : String → Bool)
    (v : KAdm5Variant) : Except Error Library :=
  match find_library (cfg.paths v) (cfg.libs v) (roleMarker v) loads with
  | some p => .ok (mkLib v ⟨.file p⟩)
  | none =>
    if loads (hardcodedLib v) then .ok (mkLib v ⟨.file (hardcodedLib v)⟩)
    else .error .libraryLoadError

/-- `Library::from_self` (`sys.rs` lines 156-171): a separate constructor
resolving the symbols from the running process. -/
def Library.from_self (selfOk : Bool) (v : KAdm5Variant) :
    Except Error Library :=
  if selfOk then .ok (mkLib v ⟨.process⟩) else .error .libraryLoadError

/-- C8 counterexample: with every file load failing but the process's own
symbol table able to resolve the symbols (`Library::from_self` succeeds),
`Library::from_variant` still fails — it never attempts the self-table
resort the claim describes. -/
theorem from_variant_no_self_fallback :
    Library.from_variant ⟨["/usr/lib"], ["kadm5clnt_mit"], [], []⟩
        (fun _ => false) .mitClient = .error .libraryLoadError
      ∧ Library.from_self true .mitClient
          = .ok (.mitClient ⟨.process⟩) := by
  constructor
  · rfl
  · rfl

/-- C8 (amended): with no explicit path, `Library::from_variant` searches the
configured candidate directories for a role-marked filename and opens the
first successful match; if the search fails it falls back to the hard-coded
conventional filename; if that load also fails it returns the load error —
it never falls back to the process's own symbol table (which is reachable
only through the separate `Library::from_self` entry point). -/
theorem from_variant_resolution (cfg : LoaderConfig) (loads : String → Bool)
    (v : KAdm5Variant) :
    (∀ p, find_library (cfg.paths v) (cfg.libs v) (roleMarker v) loads
          = some p →
        Library.from_variant cfg loads v = .ok (mkLib v ⟨.file p⟩)
          ∧ loads p = true
          ∧ p ∈ libCandidates (cfg.paths v) (cfg.libs v) (roleMarker v))
    ∧ (find_library (cfg.paths v) (cfg.libs v) (roleMarker v) loads = none →
        loads (hardcodedLib v) = true →
        Library.from_variant cfg loads v
          = .ok (mkLib v ⟨.file (hardcodedLib v)⟩))
    ∧ (find_library (cfg.paths v) (cfg.libs v) (roleMarker v) loads = none →
        loads (hardcodedLib v) = false →
        Library.from_variant cfg loads v = .error .libraryLoadError)
    ∧ (∀ lib, Library.from_variant cfg loads v = .ok lib →
        lib.source ≠ .process) := by
  refine ⟨fun p hp => ⟨?_, ?_, ?_⟩, fun hn hl => ?_, fun hn hl => ?_,
    fun lib hok => ?_⟩
  · simp [Library.from_variant, hp]
  · exact List.find?_some hp
  · exact List.mem_of_find?_eq_some hp
  · simp [Library.from_variant, hn, hl]
  · simp [Library.from_variant, hn, hl]
  · unfold Library.from_variant at hok
    rcases hf : find_library (cfg.paths v) (cfg.libs v) (roleMarker v)
        loads with _ | p
    · rw [hf] at hok
      by_cases hl : loads (hardcodedLib v) = true
      · simp only [hl, if_true, Except.ok.injEq] at hok
        subst hok
        cases v <;> simp [mkLib, Library.source]
      · simp only [Bool.not_eq_true] at hl
        simp [hl] at hok
    · rw [hf] at hok
      simp only [Except.ok.injEq] at hok
      subst hok
      cases v <;> simp [mkLib, Library.source]

/-- C8 witness: the first successful candidate wins; with the directory
search empty the hard-coded name is used. -/
theorem from_variant_resolution_witness :
    Library.from_variant ⟨["/usr/lib"], ["kadm5clnt_mit"], [], []⟩
        (fun p => p = "/usr/lib/libkadm5clnt_mit.so") .mitClient
      = .ok (mkLib .mitClient ⟨.file "/usr/lib/libkadm5clnt_mit.so"⟩)
    ∧ Library.from_variant ⟨[], [], [], []⟩
        (fun p => p = "libkadm5srv_mit.so") .mitServer
      = .ok (mkLib .mitServer ⟨.file "libkadm5srv_mit.so"⟩) :=
  ⟨((from_variant_resolution ⟨["/usr/lib"], ["kadm5clnt_mit"], [], []⟩
      (fun p => p = "/usr/lib/libkadm5clnt_mit.so") .mitClient).1
      "/usr/lib/libkadm5clnt_mit.so" (by decide)).1,
    (from_variant_resolution ⟨[], [], [], []⟩
      (fun p => p = "libkadm5srv_mit.so") .mitServer).2.1 (by decide)
      (by decide)⟩

end KadminRs
